import Mathlib

/-!
Shallow embedding of the xUmbra VPN bot core (src/bot/xui_client.py,
src/bot/database.py, src/bot/subscription_service.py, src/bot/main.py)
and proofs about it.

Conventions:
* Python dict/list JSON values are modelled by the inductive `Json`.
* Machine timestamps are `Nat` ticks; `datetime.now()` becomes an explicit
  `now : Nat` parameter threaded to each operation, as the code calls it.
* Fallible Python code (raising exceptions) is modelled with `Except String`.
* JSON numbers are restricted to integers (no claim exercises floats).
-/

namespace XUmbra

/-- JSON values as produced by `json.loads` / held in Python dicts. -/
inductive Json where
  | null : Json
  | bool : Bool → Json
  | num : Int → Json
  | str : String → Json
  | arr : List Json → Json
  | obj : List (String × Json) → Json
deriving Repr

/-- Python truthiness of a JSON value (`if x:`). -/
def Json.truthy : Json → Bool
  | .null => false
  | .bool b => b
  | .num n => n != 0
  | .str s => s != ""
  | .arr xs => !xs.isEmpty
  | .obj fs => !fs.isEmpty

/-- `d.get(k, default)` on a Python dict represented as a field list:
first binding wins, default if the key is absent. -/
def findD (fs : List (String × Json)) (k : String) (d : Json) : Json :=
  match fs.find? (fun p => p.1 == k) with
  | some p => p.2
  | none => d

/-- `x.get(k, default)` where the receiver may not be a dict: Python raises
`AttributeError` on a non-dict receiver. -/
def dictGet (j : Json) (k : String) (d : Json) : Except String Json :=
  match j with
  | .obj fs => .ok (findD fs k d)
  | _ => .error "AttributeError: object has no attribute get"

/-- Python `==` between a JSON value and a `str` literal. -/
def Json.eqStr : Json → String → Bool
  | .str s, t => s == t
  | _, _ => false

/-- Python `==` between a JSON value and an `int` literal. -/
def Json.eqNum : Json → Int → Bool
  | .num n, m => n == m
  | _, _ => false

mutual
/-- Python `str()` of a JSON value, as interpolated into f-strings. -/
def pyStr : Json → String
  | .null => "None"
  | .bool true => "True"
  | .bool false => "False"
  | .num n => toString n
  | .str s => s
  | .arr xs => "[" ++ pyStrList xs ++ "]"
  | .obj fs => "\x7b" ++ pyStrObj fs ++ "\x7d"

def pyStrList : List Json → String
  | [] => ""
  | [x] => pyStr x
  | x :: xs => pyStr x ++ ", " ++ pyStrList xs

def pyStrObj : List (String × Json) → String
  | [] => ""
  | [(k, v)] => k ++ ": " ++ pyStr v
  | (k, v) :: fs => k ++ ": " ++ pyStr v ++ ", " ++ pyStrObj fs
end

/-! ### A small JSON parser, modelling `json.loads`.
Numbers are parsed as integers; strings support the `\"` and `\\` escapes.
Parsing is fuel-indexed; `json_loads` supplies enough fuel for any input. -/

def isWs (c : Char) : Bool := c == ' ' || c == '\n' || c == '\t' || c == '\r'

def skipWs : List Char → List Char
  | [] => []
  | c :: cs => if isWs c then skipWs cs else c :: cs

/-- Parse the remainder of a JSON string literal (after the opening quote). -/
def parseStrBody : List Char → Option (String × List Char)
  | [] => none
  | '"' :: cs => some ("", cs)
  | '\\' :: c :: cs =>
      match parseStrBody cs with
      | some (s, rest) =>
          let c' := if c == 'n' then '\n' else if c == 't' then '\t'
                    else if c == 'r' then '\r' else c
          some (String.mk (c' :: s.toList), rest)
      | none => none
  | c :: cs =>
      match parseStrBody cs with
      | some (s, rest) => some (String.mk (c :: s.toList), rest)
      | none => none

def parseDigits : List Char → (List Char × List Char)
  | [] => ([], [])
  | c :: cs =>
      if c.isDigit then
        let (ds, rest) := parseDigits cs
        (c :: ds, rest)
      else ([], c :: cs)

def digitsToNat : List Char → Nat
  | ds => ds.foldl (fun acc c => acc * 10 + (c.toNat - '0'.toNat)) 0

def parseIntTok (cs : List Char) : Option (Int × List Char) :=
  match cs with
  | '-' :: rest =>
      match parseDigits rest with
      | ([], _) => none
      | (ds, rest') => some (-(digitsToNat ds : Int), rest')
  | _ =>
      match parseDigits cs with
      | ([], _) => none
      | (ds, rest') => some ((digitsToNat ds : Int), rest')

def stripTok (tok : List Char) (cs : List Char) : Option (List Char) :=
  match tok, cs with
  | [], rest => some rest
  | t :: ts, c :: rest => if t == c then stripTok ts rest else none
  | _ :: _, [] => none

mutual
def parseVal : Nat → List Char → Option (Json × List Char)
  | 0, _ => none
  | fuel + 1, cs =>
    match skipWs cs with
    | [] => none
    | '"' :: rest =>
        match parseStrBody rest with
        | some (s, rest') => some (.str s, rest')
        | none => none
    | '[' :: rest => parseArrTail fuel rest
    | '\x7b' :: rest => parseObjTail fuel rest
    | c :: rest =>
        match stripTok ['t','r','u','e'] (c :: rest) with
        | some r => some (.bool true, r)
        | none =>
        match stripTok ['f','a','l','s','e'] (c :: rest) with
        | some r => some (.bool false, r)
        | none =>
        match stripTok ['n','u','l','l'] (c :: rest) with
        | some r => some (.null, r)
        | none =>
        match parseIntTok (c :: rest) with
        | some (n, r) => some (.num n, r)
        | none => none

def parseArrTail : Nat → List Char → Option (Json × List Char)
  | 0, _ => none
  | fuel + 1, cs =>
    match skipWs cs with
    | ']' :: rest => some (.arr [], rest)
    | cs' =>
        match parseVal fuel cs' with
        | none => none
        | some (v, rest) =>
            match parseArrSep fuel rest with
            | some (vs, rest') => some (.arr (v :: vs), rest')
            | none => none

def parseArrSep : Nat → List Char → Option (List Json × List Char)
  | 0, _ => none
  | fuel + 1, cs =>
    match skipWs cs with
    | ']' :: rest => some ([], rest)
    | ',' :: rest =>
        match parseVal fuel rest with
        | none => none
        | some (v, rest') =>
            match parseArrSep fuel rest' with
            | some (vs, rest'') => some (v :: vs, rest'')
            | none => none
    | _ => none

def parseObjTail : Nat → List Char → Option (Json × List Char)
  | 0, _ => none
  | fuel + 1, cs =>
    match skipWs cs with
    | '\x7d' :: rest => some (.obj [], rest)
    | cs' =>
        match parseObjPair fuel cs' with
        | none => none
        | some (kv, rest) =>
            match parseObjSep fuel rest with
            | some (kvs, rest') => some (.obj (kv :: kvs), rest')
            | none => none

def parseObjPair : Nat → List Char → Option ((String × Json) × List Char)
  | 0, _ => none
  | fuel + 1, cs =>
    match skipWs cs with
    | '"' :: rest =>
        match parseStrBody rest with
        | none => none
        | some (k, rest') =>
            match skipWs rest' with
            | ':' :: rest'' =>
                match parseVal fuel rest'' with
                | none => none
                | some (v, rest''') => some ((k, v), rest''')
            | _ => none
    | _ => none

def parseObjSep : Nat → List Char → Option (List (String × Json) × List Char)
  | 0, _ => none
  | fuel + 1, cs =>
    match skipWs cs with
    | '\x7d' :: rest => some ([], rest)
    | ',' :: rest =>
        match parseObjPair fuel rest with
        | none => none
        | some (kv, rest') =>
            match parseObjSep fuel rest' with
            | some (kvs, rest'') => some (kv :: kvs, rest'')
            | none => none
    | _ => none
end

/-- `json.loads`: parse a full JSON document, rejecting trailing junk. -/
def json_loads (s : String) : Option Json :=
  match parseVal (s.length + 1) s.toList with
  | some (j, rest) => if (skipWs rest).isEmpty then some j else none
  | none => none

/-! ## Transport parameter resolution (xui_client.py, add_vless_client lines 174-266)

The Python code extracts REALITY parameters (`pbk`, `sid`, `sni`, `fp`) from the
inbound's parsed `streamSettings` and assembles the vless URI. All values are
kept as `Json` and stringified with `pyStr` when interpolated, exactly as
Python f-strings would. -/

/-- `settings = reality_settings.get('settings', \x7b\x7d)` followed by the
string-decoding branch: a string is `json.loads`-decoded (falling back to an
empty dict on parse failure), a non-str non-dict becomes an empty dict, and a
string decoding to a non-dict is kept as-is (Python keeps the loaded value). -/
def settingsOf (rl : List (String × Json)) : Json :=
  match findD rl "settings" (Json.obj []) with
  | .str s => (json_loads s).getD (Json.obj [])
  | .obj fs => .obj fs
  | _ => Json.obj []

/-- `pbk = settings.get('publicKey', '')`. -/
def pbkOf (sl : List (String × Json)) : Json :=
  findD sl "publicKey" (Json.str "")

/-- The `short_ids` branch pair:
`if isinstance(short_ids, list) and len(short_ids) > 0: sid = short_ids[0]
 elif isinstance(short_ids, str): sid = short_ids` (otherwise `sid` is kept). -/
def fromShortIds (old : Json) (short_ids : Json) : Json :=
  match short_ids with
  | .arr (x :: _) => x
  | .str s => .str s
  | _ => old

/-- Short-id resolution (lines 199-215): direct field, then the `shortIds`
list, then the same two lookups under `settings`; each step only fires while
the accumulated value is still falsy. -/
def sidOf (rl sl : List (String × Json)) : Json :=
  let sid0 := findD rl "shortId" (Json.str "")
  if sid0.truthy then sid0 else
  let sid1 := fromShortIds sid0 (findD rl "shortIds" (Json.arr []))
  if sid1.truthy then sid1 else
  let sid2 := findD sl "shortId" (Json.str "")
  if sid2.truthy then sid2 else
  fromShortIds sid2 (findD sl "shortIds" (Json.arr []))

/-- SNI resolution (lines 217-229): `serverNames` may be a list or a string; a
string is `json.loads`-decoded, falling back to a one-element list (or empty
list if the string is empty); take the first element of a non-empty list, a
non-empty string as-is, and default to `"google.com"` otherwise. -/
def sniOf (rl : List (String × Json)) : Json :=
  let l0 := findD rl "serverNames" (Json.arr [])
  let l :=
    match l0 with
    | .str s => (json_loads s).getD (if s != "" then Json.arr [Json.str s] else Json.arr [])
    | j => j
  match l with
  | .arr (x :: _) => x
  | .str s => if s != "" then Json.str s else Json.str "google.com"
  | _ => Json.str "google.com"

/-- Fingerprint resolution (lines 231-247): `settings.fingerprints`, then
`realitySettings.fingerprints`; same list/string normalisation as SNI;
default `"chrome"`. -/
def fpOf (rl sl : List (String × Json)) : Json :=
  let f0 := findD sl "fingerprints" (Json.arr [])
  let f1 := if f0.truthy then f0 else findD rl "fingerprints" (Json.arr [])
  let f :=
    match f1 with
    | .str s => (json_loads s).getD (if s != "" then Json.arr [Json.str s] else Json.arr [])
    | j => j
  match f with
  | .arr (x :: _) => x
  | .str s => if s != "" then Json.str s else Json.str "chrome"
  | _ => Json.str "chrome"

/-- The resolved REALITY parameters, in the order (pbk, sid, sni, fp). -/
structure RealityParams where
  pbk : Json
  sid : Json
  sni : Json
  fp : Json
deriving Repr

/-- Lines 175-247 of add_vless_client: take the parsed `stream_settings`,
read `realitySettings` (`or \x7b\x7d`), and resolve the four parameters.
A truthy non-dict `realitySettings`, or a `settings` entry that resolves to a
non-dict, makes Python raise `AttributeError` at the first `.get` call on it;
this surfaces as `.error`. -/
def resolveReality (stream_settings : Json) : Except String RealityParams := do
  let rs0 ← dictGet stream_settings "realitySettings" Json.null
  let reality := if rs0.truthy then rs0 else Json.obj []
  if reality.truthy then
    match reality with
    | .obj rl =>
        match settingsOf rl with
        | .obj sl => pure ⟨pbkOf sl, sidOf rl sl, sniOf rl, fpOf rl sl⟩
        | _ => .error "AttributeError: object has no attribute get"
    | _ => .error "AttributeError: object has no attribute get"
  else
    pure ⟨Json.str "", Json.str "", Json.str "google.com", Json.str "chrome"⟩

/-- Host resolution (lines 249-256): `server_ip = chosen.get('listen') or ''`;
if falsy or the wildcard, take the host part of the panel base URL
(`base_url.split('//')[-1].split('/')[0].split(':')[0]`). -/
def hostOfBaseUrl (base_url : String) : String :=
  let url_part := (((base_url.splitOn "//").getLastD "").splitOn "/").headD ""
  ((url_part.splitOn ":").headD "")

def resolveServerIp (listenVal : Json) (base_url : String) : Json :=
  let server_ip := if listenVal.truthy then listenVal else Json.str ""
  if !server_ip.truthy || server_ip.eqStr "0.0.0.0" || server_ip.eqStr "" then
    Json.str (hostOfBaseUrl base_url)
  else server_ip

/-- Link assembly (lines 258-266). `port = chosen.get('port') or 'PORT'` is
passed in as `port`; the caller resolves `server_ip` via `resolveServerIp`. -/
def buildVlessLink (client_uuid : String) (server_ip port : Json)
    (p : RealityParams) (display_name email : String) : String :=
  let link := "vless://" ++ client_uuid ++ "@" ++ pyStr server_ip ++ ":" ++ pyStr port
      ++ "/?type=tcp&encryption=none&security=reality"
  let link := if p.pbk.truthy then link ++ "&pbk=" ++ pyStr p.pbk else link
  let link := link ++ "&fp=" ++ pyStr p.fp
  let link := link ++ "&sni=" ++ pyStr p.sni
  let link := link ++ "&sid=" ++ (if p.sid.truthy then pyStr p.sid else "3d")
  let link := link ++ "&spx=%2F&flow=xtls-rprx-vision"
  link ++ "#" ++ (if display_name != "" then display_name else (email.splitOn "@").headD "")

/-- `chosen.get('port') or 'PORT'` (line 174). -/
def portOf (portVal : Json) : Json :=
  if portVal.truthy then portVal else Json.str "PORT"

/-- The URI-building tail of add_vless_client (lines 174-266), from the found
inbound's `port` and `listen` fields and its parsed `streamSettings`. -/
def addClientLink (stream_settings portVal listenVal : Json) (base_url : String)
    (client_uuid display_name email : String) : Except String String := do
  let p ← resolveReality stream_settings
  pure (buildVlessLink client_uuid (resolveServerIp listenVal base_url)
    (portOf portVal) p display_name email)

/-- `pat` is an initial segment of `text`. -/
def beginsWithL : List Char → List Char → Bool
  | [], _ => true
  | _ :: _, [] => false
  | p :: ps, c :: cs => p == c && beginsWithL ps cs

/-- Index of the first occurrence of `pat` in `text`, if any. -/
def indexOfL (pat : List Char) : List Char → Option Nat
  | [] => if pat.isEmpty then some 0 else none
  | c :: cs =>
      if beginsWithL pat (c :: cs) then some 0
      else (indexOfL pat cs).map (· + 1)

/-- `True` iff `pat` occurs as a substring of `s` (Python-like `in`). -/
def strContains (s pat : String) : Bool :=
  (indexOfL pat.toList s.toList).isSome

/-- `True` iff both `a` and `b` occur in `s` and the first occurrence of `a`
starts before the first occurrence of `b` (used for relative-order statements
about query parameters; the patterns used never overlap). -/
def beforeIn (s a b : String) : Bool :=
  match indexOfL a.toList s.toList, indexOfL b.toList s.toList with
  | some i, some j => i < j
  | _, _ => false

/-! ## Panel session login (xui_client.py lines 82-104)

The outcome of the one HTTP POST the login path may make is a parameter:
either a response (status, body) or one of the httpx error classes. -/

/-- Result of `self._client.post("login", ...)`. -/
inductive HttpResult where
  | resp (status : Nat) (body : String)
  | connectError (msg : String)
  | timeoutError (msg : String)
  | otherError (msg : String)
deriving Repr, DecidableEq

/-- Python truthiness of an optional string config value (None or "" falsy). -/
def optTruthy : Option String → Bool
  | none => false
  | some s => s != ""

/-- Outcome of `login()`: whether it raised, whether the session was marked
authorized, and whether a network request was issued. -/
structure LoginOutcome where
  result : Except String Unit
  authorized : Bool
  networkCall : Bool
deriving Repr

/-- `XUIClient.login` (lines 82-104). With a truthy `api_token` the session is
marked authorized with no network call. Otherwise missing credentials raise;
else the POST result decides: only statuses 200 and 302 succeed, any other
status raises inside the `try`, which the generic `except Exception` handler
rewraps as `"Login error: ..."`; connect and timeout errors get their own
messages. -/
def login (api_token username password : Option String) (net : HttpResult) :
    LoginOutcome :=
  if optTruthy api_token then
    ⟨.ok (), true, false⟩
  else if !(optTruthy username && optTruthy password) then
    ⟨.error "Either API_TOKEN or USERNAME/PASSWORD must be provided", false, false⟩
  else
    match net with
    | .resp status body =>
        if status != 200 && status != 302 then
          ⟨.error ("Login error: x-ui login failed: " ++ toString status ++ " " ++ body),
            false, true⟩
        else ⟨.ok (), true, true⟩
    | .connectError m => ⟨.error ("Connection error: " ++ m), false, true⟩
    | .timeoutError m => ⟨.error ("Connection timeout: " ++ m), false, true⟩
    | .otherError m => ⟨.error ("Login error: " ++ m), false, true⟩

/-! ## Credential revocation (xui_client.py, delete_client lines 276-419) -/

/-- Outcome of one update/delete endpoint attempt inside its `try` block:
a 200 response with a true success flag returns from delete_client; a non-200
status or a false success flag falls through to the next strategy; an
exception is caught, logged and also falls through. -/
inductive AttemptResult where
  | ok
  | badStatus (code : Nat)
  | notSuccess
  | exn (msg : String)
deriving Repr, DecidableEq

/-- Panel behaviour during one delete_client call: the inbound listing
returned by `panel/api/inbounds/list`, and the outcome of each of the five
fallback endpoint strategies, in the order the code tries them. -/
structure PanelBehaviour where
  listing : List Json
  updatePath : AttemptResult
  updateAll : AttemptResult
  update : AttemptResult
  putPath : AttemptResult
  delClient : AttemptResult
deriving Repr

/-- How delete_client returned (when it did not raise). -/
inductive DeleteOutcome where
  | notFound
  | deleted (strategy : String)
  | allFailedWarning
deriving Repr, DecidableEq

/-- The `for i in inbs: if i.get('id') == inbound_id: chosen = i; break`
loop (xui_client.py lines 287-290). `i.get('id')` raises `AttributeError`
on a non-dict element, so the search errors at the first non-dict element it
inspects; elements after the first match are never inspected (the `break`). -/
def findInbound : List Json → Int → Except String (Option Json)
  | [], _ => .ok none
  | i :: rest, inbound_id =>
      match i with
      | .obj fs =>
          if (findD fs "id" Json.null).eqNum inbound_id then .ok (some (Json.obj fs))
          else findInbound rest inbound_id
      | _ => .error "AttributeError: object has no attribute get"

/-- `settings_str = chosen.get('settings', '\x7b\x7d')` followed by the
try/except parse: a string is loaded (falling back to an empty dict on any
parse error), anything else is kept as-is. -/
def deleteSettingsOf (chosen : Json) : Json :=
  match chosen with
  | .obj fs =>
      match findD fs "settings" (Json.str "\x7b\x7d") with
      | .str s => (json_loads s).getD (Json.obj [])
      | j => j
  | _ => Json.obj []

/-- `clients = settings.get('clients', [])` followed by the
`if not isinstance(clients, list): clients = []` normalisation. -/
def clientsOf (sl : List (String × Json)) : List Json :=
  match findD sl "clients" (Json.arr []) with
  | .arr xs => xs
  | _ => []

/-- `[c for c in clients if c.get('id') != client_id]`: Python raises
`AttributeError` at the first non-dict entry. -/
def removeClients (client_id : String) : List Json → Except String (List Json)
  | [] => .ok []
  | c :: cs =>
      match c with
      | .obj fs =>
          (removeClients client_id cs).map (fun rest =>
            if (findD fs "id" Json.null).eqStr client_id then rest
            else Json.obj fs :: rest)
      | _ => .error "AttributeError: object has no attribute get"

/-- The fallback chain over the five endpoint strategies (lines 337-419):
first success returns; if all five fail the function logs a warning and
returns normally. -/
def tryDeleteEndpoints (pb : PanelBehaviour) : DeleteOutcome :=
  if pb.updatePath = .ok then .deleted "update/\x7binbound_id\x7d"
  else if pb.updateAll = .ok then .deleted "updateAll"
  else if pb.update = .ok then .deleted "update"
  else if pb.putPath = .ok then .deleted "PUT /\x7binbound_id\x7d"
  else if pb.delClient = .ok then .deleted "delClient"
  else .allFailedWarning

/-- `XUIClient.delete_client` (lines 276-419), after `ensure_login`. A falsy
(zero) inbound_id raises; a non-dict listing element inspected before a
match raises at `i.get('id')` (line 288); a traversable listing without the
configured inbound raises (line 293); a non-dict parsed settings raises at
`settings.get`; non-list `clients` becomes `[]`; an absent client id returns
`notFound` without any endpoint attempt; otherwise the fallback chain runs
and the function returns normally whatever the endpoints do. -/
def delete_client (inbound_id : Int) (client_id : String) (pb : PanelBehaviour) :
    Except String DeleteOutcome :=
  if inbound_id == 0 then .error "inbound_id is not set"
  else
    match findInbound pb.listing inbound_id with
    | .error e => .error e
    | .ok none => .error ("Не найден inbound с ID " ++ toString inbound_id)
    | .ok (some chosen) =>
        match deleteSettingsOf chosen with
        | .obj sl =>
            let clients : List Json := clientsOf sl
            match removeClients client_id clients with
            | .error e => .error e
            | .ok remaining =>
                if remaining.length = clients.length then .ok .notFound
                else .ok (tryDeleteEndpoints pb)
        | _ => .error "AttributeError: object has no attribute get"

/-! ## The subscription ledger (database.py, class Database)

Tables are lists of rows; timestamps are `Nat` ticks with `end_date =
start + days` (one tick per day, matching `timedelta(days=days)`), and
`datetime.now()` is an explicit `now` parameter at each call. Balances are
integers (no claim exercises fractional currency). -/

structure UserRow where
  user_id : Nat
  username : Option String
  full_name : Option String
  balance : Int
  referrer_id : Option Nat
  invited_count : Nat
  created_at : Nat
deriving Repr, DecidableEq

structure SubRow where
  id : Nat
  user_id : Nat
  traffic_gb : Int
  days : Nat
  status : String
  start_date : Nat
  end_date : Nat
  vless_client_id : Option String
  created_at : Nat
deriving Repr, DecidableEq

structure PaymentRow where
  id : Nat
  user_id : Nat
  amount : Int
  status : String
  subscription_id : Option Nat
  payment_method : Option String
  created_at : Nat
deriving Repr, DecidableEq

structure InviteRow where
  id : Nat
  inviter_id : Nat
  invite_code : String
  used_by : Option Nat
  used_at : Option Nat
  created_at : Nat
deriving Repr, DecidableEq

/-- The SQLite database: one list per table plus the AUTOINCREMENT counters. -/
structure DB where
  users : List UserRow
  subscriptions : List SubRow
  payments : List PaymentRow
  invites : List InviteRow
  nextSubId : Nat
  nextPaymentId : Nat
  nextInviteId : Nat
deriving Repr, DecidableEq

def emptyDB : DB := ⟨[], [], [], [], 1, 1, 1⟩

/-- `Database.get_or_create_user` (lines 178-227). On an existing row the
stored user is returned and, when `username or full_name` is truthy, the
UPDATE overwrites exactly those two columns. On a missing row a fresh user is
inserted and a truthy `referrer_id` gets its inviter's `invited_count`
incremented. -/
def get_or_create_user (uid : Nat) (username full_name : Option String)
    (referrer_id : Option Nat) (now : Nat) (db : DB) : UserRow × DB :=
  match db.users.find? (fun u => u.user_id == uid) with
  | some row =>
      let users' :=
        if optTruthy username || optTruthy full_name then
          db.users.map (fun u =>
            if u.user_id = uid then { u with username := username, full_name := full_name }
            else u)
        else db.users
      (row, { db with users := users' })
  | none =>
      let newUser : UserRow :=
        ⟨uid, username, full_name, 0, referrer_id, 0, now⟩
      let users1 := db.users ++ [newUser]
      let users2 :=
        match referrer_id with
        | some r =>
            if r ≠ 0 then
              users1.map (fun u =>
                if u.user_id = r then { u with invited_count := u.invited_count + 1 }
                else u)
            else users1
        | none => users1
      (newUser, { db with users := users2 })

/-- One step of the `ORDER BY created_at DESC LIMIT 1` selection: keep the row
with the larger `created_at` (first in table order among ties). -/
def laterOf (acc : Option SubRow) (r : SubRow) : Option SubRow :=
  match acc with
  | none => some r
  | some b => if r.created_at > b.created_at then some r else acc

/-- `ORDER BY created_at DESC LIMIT 1` over the user's `'active'` rows:
the row with maximal `created_at` among them. -/
def mostRecentActive (uid : Nat) (subs : List SubRow) : Option SubRow :=
  (subs.filter (fun r => r.user_id == uid && r.status == "active")).foldl laterOf none

/-- `UPDATE subscriptions SET status = 'expired' WHERE id = ?` applied to one
row. -/
def expireRow (rid : Nat) (r : SubRow) : SubRow :=
  if r.id = rid then { r with status := "expired" } else r

/-- `Database.get_user_active_subscription` (lines 282-314): fetch the most
recent `'active'` row; if its `end_date < now` flip that row's status to
`'expired'` (committed by the connection context manager) and return None,
else return the row. -/
def get_user_active_subscription (uid now : Nat) (db : DB) : Option SubRow × DB :=
  match mostRecentActive uid db.subscriptions with
  | none => (none, db)
  | some row =>
      if row.end_date < now then
        (none, { db with subscriptions := db.subscriptions.map (expireRow row.id) })
      else (some row, db)

/-- `Database.create_subscription` (lines 252-280): insert one `'active'` row
with `end_date = start_date + days` and `created_at = start_date = now`. -/
def create_subscription (uid : Nat) (traffic_gb : Int) (days : Nat)
    (vless_client_id : Option String) (now : Nat) (db : DB) : SubRow × DB :=
  let row : SubRow :=
    ⟨db.nextSubId, uid, traffic_gb, days, "active", now, now + days, vless_client_id, now⟩
  (row, { db with subscriptions := db.subscriptions ++ [row],
                  nextSubId := db.nextSubId + 1 })

/-- `Database.use_invite_code` (lines 385-414): select the row with this code
and `used_by IS NULL`; absent → False, no change. Otherwise mark it used, set
the consumer's `referrer_id` only where it is still NULL, and increment the
inviter's `invited_count`. -/
def use_invite_code (invite_code : String) (uid now : Nat) (db : DB) : Bool × DB :=
  match db.invites.find? (fun i => i.invite_code == invite_code && i.used_by == none) with
  | none => (false, db)
  | some row =>
      let invites' := db.invites.map (fun i =>
        if i.id = row.id then { i with used_by := some uid, used_at := some now } else i)
      let users1 := db.users.map (fun u =>
        if u.user_id == uid && u.referrer_id == none then
          { u with referrer_id := some row.inviter_id }
        else u)
      let users2 := users1.map (fun u =>
        if u.user_id = row.inviter_id then
          { u with invited_count := u.invited_count + 1 }
        else u)
      (true, { db with invites := invites', users := users2 })

/-! ## SubscriptionService.create_subscription_for_user
(subscription_service.py lines 48-85). The x-ui panel call outcome is a
parameter: `.ok` carries the created client's id and link (the dict returned
by `add_vless_client`), `.error` the exception text. -/

structure XuiResult where
  id : String
  link : String
deriving Repr, DecidableEq

structure Plan where
  traffic_gb : Int
  days : Nat
  price : Int
deriving Repr, DecidableEq

/-- The service purchase flow: check for an active subscription (raising
`ValueError` if one exists), call the panel (re-raising its failure text
wrapped as `"Ошибка при создании VPN подключения: ..."`), then insert the
subscription row. Balance and payments are never touched by this method. -/
def create_subscription_for_user (uid : Nat) (plan : Plan)
    (xui : Except String XuiResult) (now : Nat) (db : DB) :
    Except String (SubRow × String) × DB :=
  let res := get_user_active_subscription uid now db
  match res.1 with
  | some _ => (.error "У вас уже есть активная подписка", res.2)
  | none =>
      match xui with
      | .error e => (.error ("Ошибка при создании VPN подключения: " ++ e), res.2)
      | .ok r =>
          let created := create_subscription uid plan.traffic_gb plan.days (some r.id) now res.2
          (.ok (created.1, r.link), created.2)

/-! ## The Stars payment flow (main.py, process_successful_payment lines
813-857). This handler runs after Telegram confirms the payment. Its database
block updates the user's entitlement columns and inserts the payment row with
status `'completed'` directly — the comment at line 813 reads "Обновление
подписки в базе данных (БЕЗ создания ключа)": no panel create-client call is
made; VPN keys are created later through the key-management handlers.
Calendar months are approximated as 30 ticks (`DATE('now', '+N*30 days')` for
the new-subscription branch; the renewal branch's `'+N months'` shift is
approximated the same way). -/

structure MainUserRow where
  user_id : Nat
  pay_subscribed : Bool
  subscription_end : Nat
  renewal_used : Bool
deriving Repr, DecidableEq

structure MainPaymentRow where
  user_id : Nat
  amount : Int
  currency : String
  plan_id : String
  plan_type : String
  status : String
  charge_id : String
deriving Repr, DecidableEq

/-- A provisioned VPN key (credential) row of main.py's `keys` table. -/
structure KeyRow where
  user_id : Nat
  credential_id : String
deriving Repr, DecidableEq

structure MainDB where
  users : List MainUserRow
  payments : List MainPaymentRow
  keys : List KeyRow
deriving Repr, DecidableEq

/-- The database block of process_successful_payment (lines 813-857). -/
def process_successful_payment_db (uid : Nat) (is_new_subscription : Bool)
    (duration_months : Nat) (price : Int) (currency plan_id charge_id : String)
    (now : Nat) (db : MainDB) : MainDB :=
  let users' := db.users.map (fun u =>
    if u.user_id = uid then
      if is_new_subscription then
        { u with pay_subscribed := true,
                 subscription_end := now + duration_months * 30,
                 renewal_used := false }
      else
        { u with subscription_end := u.subscription_end + duration_months * 30,
                 renewal_used := true }
    else u)
  let payment : MainPaymentRow :=
    ⟨uid, price, currency, plan_id, "subscription", "completed", charge_id⟩
  { db with users := users', payments := db.payments ++ [payment] }

/-! ## Ledger invariants -/

/-- A subscription row that is `'active'` in status and not clock-expired at
`now` (the code expires on `end_date < now`, so unexpired means `now ≤ end`). -/
def ActiveUnexpired (r : SubRow) (now : Nat) : Prop :=
  r.status = "active" ∧ now ≤ r.end_date

instance (r : SubRow) (now : Nat) : Decidable (ActiveUnexpired r now) := by
  unfold ActiveUnexpired; infer_instance

/-- At most one active, unexpired subscription per user. -/
def AtMostOneActive (db : DB) (uid t : Nat) : Prop :=
  ∀ r1 ∈ db.subscriptions, ∀ r2 ∈ db.subscriptions,
    r1.user_id = uid → r2.user_id = uid →
    ActiveUnexpired r1 t → ActiveUnexpired r2 t → r1 = r2

/-! ### Properties of the `mostRecentActive` selection -/

theorem foldl_laterOf_mem : ∀ (l : List SubRow) (acc : Option SubRow) (r : SubRow),
    l.foldl laterOf acc = some r → acc = some r ∨ r ∈ l := by
  intro l
  induction l with
  | nil => intro acc r h; exact Or.inl h
  | cons x xs ih =>
      intro acc r h
      simp only [List.foldl_cons] at h
      rcases ih (laterOf acc x) r h with h' | h'
      · cases acc with
        | none =>
            simp only [laterOf] at h'
            exact Or.inr (by simp [← Option.some.injEq r x |>.mp h'.symm])
        | some b =>
            by_cases hgt : x.created_at > b.created_at
            · simp only [laterOf, if_pos hgt] at h'
              exact Or.inr (by simp [← Option.some.injEq r x |>.mp h'.symm])
            · simp only [laterOf, if_neg hgt] at h'
              exact Or.inl h'
      · exact Or.inr (List.mem_cons_of_mem x h')

theorem foldl_laterOf_ne_none : ∀ (l : List SubRow) (b : SubRow),
    l.foldl laterOf (some b) ≠ none := by
  intro l
  induction l with
  | nil => intro b h; exact Option.noConfusion h
  | cons x xs ih =>
      intro b
      simp only [List.foldl_cons, laterOf]
      by_cases hgt : x.created_at > b.created_at
      · rw [if_pos hgt]; exact ih x
      · rw [if_neg hgt]; exact ih b

theorem foldl_laterOf_none_iff (l : List SubRow) :
    l.foldl laterOf none = none ↔ l = [] := by
  cases l with
  | nil => simp
  | cons x xs =>
      simp only [List.foldl_cons, laterOf]
      exact ⟨fun h => absurd h (foldl_laterOf_ne_none xs x), fun h => List.noConfusion h⟩

theorem foldl_laterOf_max : ∀ (l : List SubRow) (acc : Option SubRow) (r : SubRow),
    l.foldl laterOf acc = some r →
    (∀ x ∈ l, x.created_at ≤ r.created_at) ∧
    (∀ b, acc = some b → b.created_at ≤ r.created_at) := by
  intro l
  induction l with
  | nil =>
      intro acc r h
      refine ⟨fun x hx => absurd hx (List.not_mem_nil x), fun b hb => ?_⟩
      rw [hb] at h; cases h; exact le_refl _
  | cons x xs ih =>
      intro acc r h
      simp only [List.foldl_cons] at h
      obtain ⟨ihl, ihacc⟩ := ih (laterOf acc x) r h
      have hx_le : x.created_at ≤ r.created_at := by
        cases acc with
        | none => exact ihacc x rfl
        | some b =>
            by_cases hgt : x.created_at > b.created_at
            · exact ihacc x (by simp [laterOf, if_pos hgt])
            · exact le_trans (le_of_not_lt hgt) (ihacc b (by simp [laterOf, if_neg hgt]))
      refine ⟨fun y hy => ?_, fun b hb => ?_⟩
      · rcases List.mem_cons.mp hy with rfl | hy'
        · exact hx_le
        · exact ihl y hy'
      · subst hb
        by_cases hgt : x.created_at > b.created_at
        · exact le_trans (le_of_lt hgt) (by exact ihacc x (by simp [laterOf, if_pos hgt]))
        · exact ihacc b (by simp [laterOf, if_neg hgt])

theorem mostRecentActive_mem {uid : Nat} {subs : List SubRow} {r : SubRow}
    (h : mostRecentActive uid subs = some r) :
    r ∈ subs ∧ r.user_id = uid ∧ r.status = "active" := by
  rcases foldl_laterOf_mem _ none r h with h' | h'
  · exact Option.noConfusion h'
  · have := List.mem_filter.mp h'
    refine ⟨this.1, ?_, ?_⟩
    · have hb := this.2
      simp only [Bool.and_eq_true, beq_iff_eq] at hb
      exact hb.1
    · have hb := this.2
      simp only [Bool.and_eq_true, beq_iff_eq] at hb
      exact hb.2

theorem mostRecentActive_max {uid : Nat} {subs : List SubRow} {r : SubRow}
    (h : mostRecentActive uid subs = some r) :
    ∀ r' ∈ subs, r'.user_id = uid → r'.status = "active" →
      r'.created_at ≤ r.created_at := by
  intro r' hmem hu hs
  have hf : r' ∈ subs.filter (fun q => q.user_id == uid && q.status == "active") :=
    List.mem_filter.mpr ⟨hmem, by simp [hu, hs]⟩
  exact (foldl_laterOf_max _ none r h).1 r' hf

theorem mostRecentActive_none_iff {uid : Nat} {subs : List SubRow} :
    mostRecentActive uid subs = none ↔
      ∀ r ∈ subs, ¬(r.user_id = uid ∧ r.status = "active") := by
  unfold mostRecentActive
  rw [foldl_laterOf_none_iff, List.filter_eq_nil_iff]
  constructor
  · intro h r hr hc
    exact h r hr (by simp [hc.1, hc.2])
  · intro h r hr hb
    simp only [Bool.and_eq_true, beq_iff_eq] at hb
    exact h r hr ⟨hb.1, hb.2⟩

theorem mostRecentActive_isSome {uid : Nat} {subs : List SubRow} {r : SubRow}
    (hmem : r ∈ subs) (hu : r.user_id = uid) (hs : r.status = "active") :
    ∃ m, mostRecentActive uid subs = some m := by
  cases hm : mostRecentActive uid subs with
  | some m => exact ⟨m, rfl⟩
  | none =>
      exact absurd ⟨hu, hs⟩ (mostRecentActive_none_iff.mp hm r hmem)

/-! ### Well-formedness of reachable ledger states -/

@[simp] theorem expireRow_user (rid : Nat) (r : SubRow) :
    (expireRow rid r).user_id = r.user_id := by
  unfold expireRow; split <;> rfl

@[simp] theorem expireRow_created (rid : Nat) (r : SubRow) :
    (expireRow rid r).created_at = r.created_at := by
  unfold expireRow; split <;> rfl

@[simp] theorem expireRow_id (rid : Nat) (r : SubRow) :
    (expireRow rid r).id = r.id := by
  unfold expireRow; split <;> rfl

@[simp] theorem expireRow_end (rid : Nat) (r : SubRow) :
    (expireRow rid r).end_date = r.end_date := by
  unfold expireRow; split <;> rfl

theorem expireRow_active {rid : Nat} {r : SubRow}
    (h : (expireRow rid r).status = "active") :
    r.status = "active" ∧ expireRow rid r = r := by
  unfold expireRow at h ⊢
  by_cases hid : r.id = rid
  · rw [if_pos hid] at h; exact absurd h (by simp)
  · rw [if_neg hid] at h; rw [if_neg hid]; exact ⟨h, rfl⟩

/-- Well-formedness of the subscriptions table at time `t`: all rows were
created strictly before `t`; per user, creation times identify rows; ids
identify rows and stay below the AUTOINCREMENT counter; and any active,
unexpired row is the most recently created among its user's active rows.
All states reachable by sequential operation satisfy this (`reach_wf`). -/
structure WF (db : DB) (t : Nat) : Prop where
  created_lt : ∀ r ∈ db.subscriptions, r.created_at < t
  created_inj : ∀ r1 ∈ db.subscriptions, ∀ r2 ∈ db.subscriptions,
    r1.user_id = r2.user_id → r1.created_at = r2.created_at → r1 = r2
  id_inj : ∀ r1 ∈ db.subscriptions, ∀ r2 ∈ db.subscriptions, r1.id = r2.id → r1 = r2
  id_lt : ∀ r ∈ db.subscriptions, r.id < db.nextSubId
  active_max : ∀ r ∈ db.subscriptions, ActiveUnexpired r t →
    ∀ r' ∈ db.subscriptions, r'.user_id = r.user_id → r'.status = "active" →
      r'.created_at ≤ r.created_at

theorem WF_mono {db : DB} {t t' : Nat} (h : WF db t) (ht : t ≤ t') : WF db t' := by
  refine ⟨fun r hr => lt_of_lt_of_le (h.created_lt r hr) ht,
    h.created_inj, h.id_inj, h.id_lt, ?_⟩
  intro r hr hau r' hr' hu hs
  exact h.active_max r hr ⟨hau.1, le_trans ht hau.2⟩ r' hr' hu hs

theorem WF_atMostOne {db : DB} {t : Nat} (h : WF db t) (uid : Nat) :
    AtMostOneActive db uid t := by
  intro r1 h1 r2 h2 hu1 hu2 ha1 ha2
  have l12 := h.active_max r1 h1 ha1 r2 h2 (hu2.trans hu1.symm) ha2.1
  have l21 := h.active_max r2 h2 ha2 r1 h1 (hu1.trans hu2.symm) ha1.1
  exact h.created_inj r1 h1 r2 h2 (hu1.trans hu2.symm) (le_antisymm l21 l12)

theorem WF_empty : WF emptyDB 0 := by
  refine ⟨?_, ?_, ?_, ?_, ?_⟩ <;> intro r hr <;> simp [emptyDB] at hr

theorem get_snd_cases (uid now : Nat) (db : DB) :
    (get_user_active_subscription uid now db).2 = db ∨
    ∃ row, mostRecentActive uid db.subscriptions = some row ∧ row.end_date < now ∧
      (get_user_active_subscription uid now db).2 =
        { db with subscriptions := db.subscriptions.map (expireRow row.id) } := by
  unfold get_user_active_subscription
  cases hm : mostRecentActive uid db.subscriptions with
  | none => exact Or.inl rfl
  | some row =>
      by_cases hlt : row.end_date < now
      · exact Or.inr ⟨row, rfl, hlt, by simp [hlt]⟩
      · exact Or.inl (by simp [hlt])

theorem get_wf {db : DB} {t : Nat} (h : WF db t) (uid t' : Nat) (ht : t ≤ t') :
    WF (get_user_active_subscription uid t' db).2 t' := by
  have h' : WF db t' := WF_mono h ht
  rcases get_snd_cases uid t' db with heq | ⟨row, _, _, heq⟩
  · rwa [heq]
  · rw [heq]
    constructor
    · intro r' hr'
      obtain ⟨r, hr, rfl⟩ := List.mem_map.mp hr'
      simpa using h'.created_lt r hr
    · intro r1' h1' r2' h2' hu hc
      obtain ⟨r1, h1, rfl⟩ := List.mem_map.mp h1'
      obtain ⟨r2, h2, rfl⟩ := List.mem_map.mp h2'
      simp only [expireRow_user, expireRow_created] at hu hc
      rw [h'.created_inj r1 h1 r2 h2 hu hc]
    · intro r1' h1' r2' h2' hid
      obtain ⟨r1, h1, rfl⟩ := List.mem_map.mp h1'
      obtain ⟨r2, h2, rfl⟩ := List.mem_map.mp h2'
      simp only [expireRow_id] at hid
      rw [h'.id_inj r1 h1 r2 h2 hid]
    · intro r' hr'
      obtain ⟨r, hr, rfl⟩ := List.mem_map.mp hr'
      simpa using h'.id_lt r hr
    · intro r' hr' hau r'' hr'' hu hs
      obtain ⟨r, hr, rfl⟩ := List.mem_map.mp hr'
      obtain ⟨q, hq, rfl⟩ := List.mem_map.mp hr''
      obtain ⟨hract, hreq⟩ := expireRow_active hau.1
      obtain ⟨hqact, hqeq⟩ := expireRow_active hs
      rw [hreq] at hau
      simp only [expireRow_user] at hu
      simp only [expireRow_created]
      exact h'.active_max r hr hau q hq hu hqact

theorem get_none_no_active {db : DB} {t : Nat} (h : WF db t) {uid t' : Nat} (ht : t ≤ t')
    (hnone : (get_user_active_subscription uid t' db).1 = none) :
    ∀ r' ∈ (get_user_active_subscription uid t' db).2.subscriptions,
      r'.user_id = uid → r'.status = "active" → r'.end_date < t' := by
  cases hm : mostRecentActive uid db.subscriptions with
  | none =>
      have h2 : (get_user_active_subscription uid t' db).2 = db := by
        simp [get_user_active_subscription, hm]
      rw [h2]
      intro r' hr' hu hs
      exact absurd ⟨hu, hs⟩ (mostRecentActive_none_iff.mp hm r' hr')
  | some row =>
      by_cases hlt : row.end_date < t'
      · have h2 : (get_user_active_subscription uid t' db).2 =
            { db with subscriptions := db.subscriptions.map (expireRow row.id) } := by
          simp [get_user_active_subscription, hm, hlt]
        rw [h2]
        intro r' hr' hu hs
        obtain ⟨r, hr, rfl⟩ := List.mem_map.mp hr'
        obtain ⟨hract, hreq⟩ := expireRow_active hs
        simp only [expireRow_user] at hu
        simp only [expireRow_end]
        by_contra hge
        have hrle : t' ≤ r.end_date := le_of_not_lt hge
        obtain ⟨hrowmem, hrowuser, hrowact⟩ := mostRecentActive_mem hm
        have h1 : row.created_at ≤ r.created_at :=
          h.active_max r hr ⟨hract, le_trans ht hrle⟩ row hrowmem
            (hrowuser.trans hu.symm) hrowact
        have h2 : r.created_at ≤ row.created_at :=
          mostRecentActive_max hm r hr hu hract
        have hrrow : r = row :=
          h.created_inj r hr row hrowmem (hu.trans hrowuser.symm) (le_antisymm h2 h1)
        rw [hrrow] at hrle
        exact absurd hlt (not_lt_of_le hrle)
      · have h1 : (get_user_active_subscription uid t' db).1 = some row := by
          simp [get_user_active_subscription, hm, hlt]
        rw [h1] at hnone
        exact absurd hnone (by simp)

theorem get_fst_some_iff {db : DB} {t : Nat} (h : WF db t) {uid t' : Nat} (ht : t ≤ t') :
    (∃ s, (get_user_active_subscription uid t' db).1 = some s) ↔
      ∃ r ∈ db.subscriptions, r.user_id = uid ∧ ActiveUnexpired r t' := by
  constructor
  · rintro ⟨s, hs⟩
    cases hm : mostRecentActive uid db.subscriptions with
    | none => simp [get_user_active_subscription, hm] at hs
    | some row =>
        by_cases hlt : row.end_date < t'
        · simp [get_user_active_subscription, hm, hlt] at hs
        · obtain ⟨hmem, hu, hact⟩ := mostRecentActive_mem hm
          exact ⟨row, hmem, hu, hact, le_of_not_lt hlt⟩
  · rintro ⟨r0, hmem, hu, hst, hend⟩
    obtain ⟨m, hm⟩ := mostRecentActive_isSome hmem hu hst
    obtain ⟨hmm, hmu, hms⟩ := mostRecentActive_mem hm
    have h1 : m.created_at ≤ r0.created_at :=
      h.active_max r0 hmem ⟨hst, le_trans ht hend⟩ m hmm (hmu.trans hu.symm) hms
    have h2 : r0.created_at ≤ m.created_at :=
      mostRecentActive_max hm r0 hmem hu hst
    have hmr0 : m = r0 :=
      h.created_inj m hmm r0 hmem (hmu.trans hu.symm) (le_antisymm h1 h2)
    have hlt' : ¬(m.end_date < t') := by rw [hmr0]; exact not_lt_of_le hend
    exact ⟨m, by simp [get_user_active_subscription, hm, hlt']⟩

theorem purchase_wf {db : DB} {t : Nat} (h : WF db t) (uid : Nat) (plan : Plan)
    (xui : Except String XuiResult) (t' : Nat) (ht : t ≤ t') :
    WF (create_subscription_for_user uid plan xui t' db).2 (t' + 1) := by
  have hwf1 : WF (get_user_active_subscription uid t' db).2 t' := get_wf h uid t' ht
  cases h1 : (get_user_active_subscription uid t' db).1 with
  | some s =>
      have h2 : (create_subscription_for_user uid plan xui t' db).2 =
          (get_user_active_subscription uid t' db).2 := by
        simp [create_subscription_for_user, h1]
      rw [h2]; exact WF_mono hwf1 (Nat.le_succ _)
  | none =>
      cases xui with
      | error e =>
          have h2 : (create_subscription_for_user uid plan (.error e) t' db).2 =
              (get_user_active_subscription uid t' db).2 := by
            simp [create_subscription_for_user, h1]
          rw [h2]; exact WF_mono hwf1 (Nat.le_succ _)
      | ok r =>
          have h2 : (create_subscription_for_user uid plan (.ok r) t' db).2 =
              { (get_user_active_subscription uid t' db).2 with
                subscriptions := (get_user_active_subscription uid t' db).2.subscriptions ++
                  [⟨(get_user_active_subscription uid t' db).2.nextSubId, uid, plan.traffic_gb,
                    plan.days, "active", t', t' + plan.days, some r.id, t'⟩],
                nextSubId := (get_user_active_subscription uid t' db).2.nextSubId + 1 } := by
            simp [create_subscription_for_user, create_subscription, h1]
          have hno : ∀ q ∈ (get_user_active_subscription uid t' db).2.subscriptions,
              q.user_id = uid → q.status = "active" → q.end_date < t' :=
            get_none_no_active h ht h1
          rw [h2]
          set db1 := (get_user_active_subscription uid t' db).2 with hdb1
          set nrow : SubRow := ⟨db1.nextSubId, uid, plan.traffic_gb, plan.days, "active",
            t', t' + plan.days, some r.id, t'⟩ with hnrow
          constructor
          · intro q hq
            rcases List.mem_append.mp hq with hq' | hq'
            · exact lt_trans (hwf1.created_lt q hq') (Nat.lt_succ_self _)
            · rw [List.mem_singleton.mp hq']
              exact Nat.lt_succ_self t'
          · intro q1 hq1 q2 hq2 hu hc
            rcases List.mem_append.mp hq1 with hq1' | hq1' <;>
              rcases List.mem_append.mp hq2 with hq2' | hq2'
            · exact hwf1.created_inj q1 hq1' q2 hq2' hu hc
            · rw [List.mem_singleton.mp hq2'] at hc
              exact absurd hc (ne_of_lt (hwf1.created_lt q1 hq1'))
            · rw [List.mem_singleton.mp hq1'] at hc
              exact absurd hc.symm (ne_of_lt (hwf1.created_lt q2 hq2'))
            · rw [List.mem_singleton.mp hq1', List.mem_singleton.mp hq2']
          · intro q1 hq1 q2 hq2 hid
            rcases List.mem_append.mp hq1 with hq1' | hq1' <;>
              rcases List.mem_append.mp hq2 with hq2' | hq2'
            · exact hwf1.id_inj q1 hq1' q2 hq2' hid
            · rw [List.mem_singleton.mp hq2'] at hid
              exact absurd hid (ne_of_lt (hwf1.id_lt q1 hq1'))
            · rw [List.mem_singleton.mp hq1'] at hid
              exact absurd hid.symm (ne_of_lt (hwf1.id_lt q2 hq2'))
            · rw [List.mem_singleton.mp hq1', List.mem_singleton.mp hq2']
          · intro q hq
            rcases List.mem_append.mp hq with hq' | hq'
            · exact lt_trans (hwf1.id_lt q hq') (Nat.lt_succ_self _)
            · rw [List.mem_singleton.mp hq']
              exact Nat.lt_succ_self _
          · intro q hq hau q' hq' hu hs
            rcases List.mem_append.mp hq with hq0 | hq0
            · by_cases hqu : q.user_id = uid
              · have hend := hno q hq0 hqu hau.1
                exact absurd (lt_of_lt_of_le (Nat.lt_succ_self t') hau.2)
                  (not_lt_of_le (le_of_lt hend))
              · rcases List.mem_append.mp hq' with hq0' | hq0'
                · exact hwf1.active_max q hq0 ⟨hau.1, le_trans (Nat.le_succ t') hau.2⟩
                    q' hq0' hu hs
                · rw [List.mem_singleton.mp hq0'] at hu
                  exact absurd hu.symm hqu
            · rw [List.mem_singleton.mp hq0]
              rcases List.mem_append.mp hq' with hq0' | hq0'
              · exact le_of_lt (hwf1.created_lt q' hq0')
              · rw [List.mem_singleton.mp hq0']

/-- Sequential operation of the subscription lifecycle: any interleaving of
active-subscription reads and purchases at nondecreasing times, starting from
a fresh database. Each step is stamped with a time no earlier than the
previous step's. -/
inductive Reach : DB → Nat → Prop where
  | init : Reach emptyDB 0
  | query (uid t' : Nat) {db : DB} {t : Nat} :
      Reach db t → t ≤ t' → Reach (get_user_active_subscription uid t' db).2 (t' + 1)
  | purchase (uid : Nat) (plan : Plan) (xui : Except String XuiResult) (t' : Nat)
      {db : DB} {t : Nat} :
      Reach db t → t ≤ t' → Reach (create_subscription_for_user uid plan xui t' db).2 (t' + 1)

theorem reach_wf {db : DB} {t : Nat} (h : Reach db t) : WF db t := by
  induction h with
  | init => exact WF_empty
  | query uid t' _ ht ih => exact WF_mono (get_wf ih uid t' ht) (Nat.le_succ _)
  | purchase uid plan xui t' _ ht ih => exact purchase_wf ih uid plan xui t' ht

/-- The ValueError text of a failed panel call never collides with the
duplicate-subscription rejection text. -/
theorem wrapped_error_ne (e : String) :
    "Ошибка при создании VPN подключения: " ++ e ≠ "У вас уже есть активная подписка" := by
  intro heq
  have hlen := congrArg String.length heq
  rw [String.length_append] at hlen
  have h37 : ("Ошибка при создании VPN подключения: " : String).length = 37 := rfl
  have h32 : ("У вас уже есть активная подписка" : String).length = 32 := rfl
  rw [h37, h32] at hlen
  omega

/-! ## Claim theorems -/

/-- C3: under sequential operation (any reachable ledger state), every user
has at most one active, unexpired subscription; create_subscription_for_user
rejects with the ValueError text exactly when the user already has an active,
unexpired subscription; otherwise, when the panel call succeeds, it appends
exactly one new row with status 'active'; and the at-most-one-active
invariant still holds after the purchase. -/
theorem C3_single_active_invariant (db : DB) (t : Nat) (h : Reach db t)
    (uid : Nat) (plan : Plan) (xui : Except String XuiResult) (now : Nat) (ht : t ≤ now) :
    (∀ u, AtMostOneActive db u t) ∧
    (((create_subscription_for_user uid plan xui now db).1 =
        Except.error "У вас уже есть активная подписка") ↔
      ∃ r ∈ db.subscriptions, r.user_id = uid ∧ ActiveUnexpired r now) ∧
    (∀ res, xui = Except.ok res →
      (¬∃ r ∈ db.subscriptions, r.user_id = uid ∧ ActiveUnexpired r now) →
      (create_subscription_for_user uid plan xui now db).2.subscriptions =
        (get_user_active_subscription uid now db).2.subscriptions ++
          [⟨(get_user_active_subscription uid now db).2.nextSubId, uid, plan.traffic_gb,
            plan.days, "active", now, now + plan.days, some res.id, now⟩]) ∧
    (∀ u, AtMostOneActive (create_subscription_for_user uid plan xui now db).2 u (now + 1)) := by
  have hwf := reach_wf h
  refine ⟨fun u => WF_atMostOne hwf u, ?_, ?_,
    fun u => WF_atMostOne (purchase_wf hwf uid plan xui now ht) u⟩
  · cases hg : (get_user_active_subscription uid now db).1 with
    | some s =>
        have hres : (create_subscription_for_user uid plan xui now db).1 =
            Except.error "У вас уже есть активная подписка" := by
          simp [create_subscription_for_user, hg]
        exact iff_of_true hres ((get_fst_some_iff hwf ht).mp ⟨s, hg⟩)
    | none =>
        have hrhs : ¬∃ r ∈ db.subscriptions, r.user_id = uid ∧ ActiveUnexpired r now := by
          intro hex
          obtain ⟨s, hs⟩ := (get_fst_some_iff hwf ht).mpr hex
          rw [hg] at hs
          exact Option.noConfusion hs
        refine iff_of_false ?_ hrhs
        cases xui with
        | error e =>
            intro heq
            simp [create_subscription_for_user, hg] at heq
            exact wrapped_error_ne e heq
        | ok r =>
            intro heq
            simp [create_subscription_for_user, create_subscription, hg] at heq
  · intro res hres hnex
    subst hres
    have hg : (get_user_active_subscription uid now db).1 = none := by
      cases hg : (get_user_active_subscription uid now db).1 with
      | none => rfl
      | some s => exact absurd ((get_fst_some_iff hwf ht).mp ⟨s, hg⟩) hnex
    simp [create_subscription_for_user, create_subscription, hg]

/-- C3 (witness): on a fresh database at time 5, user 1's purchase with a
successful panel call is not rejected, appends exactly one active row, and
the at-most-one-active invariant holds before and after. -/
theorem C3_witness :
    Reach emptyDB 0 ∧ (0 : Nat) ≤ 5 ∧
    ((∀ u, AtMostOneActive emptyDB u 0) ∧
     (((create_subscription_for_user 1 ⟨30, 30, 199⟩
          (Except.ok ⟨"cid-1", "vless://x"⟩) 5 emptyDB).1 =
         Except.error "У вас уже есть активная подписка") ↔
       ∃ r ∈ emptyDB.subscriptions, r.user_id = 1 ∧ ActiveUnexpired r 5) ∧
     (∀ res, (Except.ok (⟨"cid-1", "vless://x"⟩ : XuiResult) : Except String XuiResult) =
          Except.ok res →
       (¬∃ r ∈ emptyDB.subscriptions, r.user_id = 1 ∧ ActiveUnexpired r 5) →
       (create_subscription_for_user 1 ⟨30, 30, 199⟩
           (Except.ok ⟨"cid-1", "vless://x"⟩) 5 emptyDB).2.subscriptions =
         (get_user_active_subscription 1 5 emptyDB).2.subscriptions ++
           [⟨(get_user_active_subscription 1 5 emptyDB).2.nextSubId, 1, 30, 30, "active",
             5, 5 + 30, some res.id, 5⟩]) ∧
     (∀ u, AtMostOneActive
        (create_subscription_for_user 1 ⟨30, 30, 199⟩
          (Except.ok ⟨"cid-1", "vless://x"⟩) 5 emptyDB).2 u (5 + 1))) :=
  ⟨Reach.init, by decide,
    C3_single_active_invariant emptyDB 0 Reach.init 1 ⟨30, 30, 199⟩
      (Except.ok ⟨"cid-1", "vless://x"⟩) 5 (by decide)⟩

/-- C4: get_user_active_subscription returns the most recent 'active' row
only when its end_date is not in the past; when now() > end_date it flips
that row to 'expired' and returns None (the flipped row is no longer
'active', so it is excluded from active queries from that read on); with no
active row it returns None and changes nothing. -/
theorem C4_lazy_expiry_on_read (uid now : Nat) (db : DB) :
    (mostRecentActive uid db.subscriptions = none →
      get_user_active_subscription uid now db = (none, db)) ∧
    (∀ row, mostRecentActive uid db.subscriptions = some row → row.end_date < now →
      (get_user_active_subscription uid now db).1 = none ∧
      (get_user_active_subscription uid now db).2 =
        { db with subscriptions := db.subscriptions.map (expireRow row.id) } ∧
      (∀ r' ∈ (get_user_active_subscription uid now db).2.subscriptions,
        r'.id = row.id → r'.status = "expired")) ∧
    (∀ row, mostRecentActive uid db.subscriptions = some row → ¬(row.end_date < now) →
      get_user_active_subscription uid now db = (some row, db)) := by
  refine ⟨?_, ?_, ?_⟩
  · intro hm; simp [get_user_active_subscription, hm]
  · intro row hm hlt
    have h2 : (get_user_active_subscription uid now db).2 =
        { db with subscriptions := db.subscriptions.map (expireRow row.id) } := by
      simp [get_user_active_subscription, hm, hlt]
    refine ⟨by simp [get_user_active_subscription, hm, hlt], h2, ?_⟩
    intro r' hr' hid
    rw [h2] at hr'
    obtain ⟨r, _, rfl⟩ := List.mem_map.mp hr'
    simp only [expireRow_id] at hid
    simp [expireRow, hid]
  · intro row hm hge; simp [get_user_active_subscription, hm, hge]

/-- C4 (witness): a subscription of user 7 with end_date 3, read at time 5,
is flipped to 'expired' and not returned. -/
theorem C4_witness :
    mostRecentActive 7 (⟨[], [⟨1, 7, 30, 30, "active", 0, 3, some "c1", 0⟩], [], [],
        2, 1, 1⟩ : DB).subscriptions =
      some ⟨1, 7, 30, 30, "active", 0, 3, some "c1", 0⟩ ∧
    (3 : Nat) < 5 ∧
    ((get_user_active_subscription 7 5
        ⟨[], [⟨1, 7, 30, 30, "active", 0, 3, some "c1", 0⟩], [], [], 2, 1, 1⟩).1 = none ∧
     (get_user_active_subscription 7 5
        ⟨[], [⟨1, 7, 30, 30, "active", 0, 3, some "c1", 0⟩], [], [], 2, 1, 1⟩).2 =
       { (⟨[], [⟨1, 7, 30, 30, "active", 0, 3, some "c1", 0⟩], [], [], 2, 1, 1⟩ : DB) with
           subscriptions :=
             [⟨1, 7, 30, 30, "active", 0, 3, some "c1", 0⟩].map (expireRow 1) } ∧
     (∀ r' ∈ (get_user_active_subscription 7 5
        ⟨[], [⟨1, 7, 30, 30, "active", 0, 3, some "c1", 0⟩], [], [], 2, 1, 1⟩).2.subscriptions,
        r'.id = 1 → r'.status = "expired")) :=
  ⟨rfl, by decide,
    (C4_lazy_expiry_on_read 7 5
        ⟨[], [⟨1, 7, 30, 30, "active", 0, 3, some "c1", 0⟩], [], [], 2, 1, 1⟩).2.1
      ⟨1, 7, 30, 30, "active", 0, 3, some "c1", 0⟩ rfl (by decide)⟩

/-- C1 (counterexample): the Stars payment handler records the payment with
status 'completed' while creating no VPN credential at all (its database
block is explicitly "БЕЗ создания ключа"): starting from one user, no
payments and no keys, after the handler a completed payment exists and the
keys table is still empty. This refutes "for every purchase flow a payment
is never marked completed before the VPN credential exists". -/
theorem C1_counterexample :
    ((process_successful_payment_db 1 true 1 199 "XTR" "1_month" "chg" 100
        ⟨[⟨1, false, 0, false⟩], [], []⟩).payments.map MainPaymentRow.status =
      ["completed"]) ∧
    (process_successful_payment_db 1 true 1 199 "XTR" "1_month" "chg" 100
        ⟨[⟨1, false, 0, false⟩], [], []⟩).keys = [] ∧
    (⟨[⟨1, false, 0, false⟩], [], []⟩ : MainDB).keys = [] := by
  refine ⟨rfl, rfl, rfl⟩

/-- C1 (amended): in the service purchase flow
(SubscriptionService.create_subscription_for_user), a failed panel
create-client call is fully abortive: payments, users and invites are
untouched, no subscription row is added (only the lazy-expiry status flip of
the read may occur), and when no active subscription blocked the purchase
the failure is surfaced with the upstream error text appended. -/
theorem C1_service_flow_abortive (uid : Nat) (plan : Plan) (e : String)
    (now : Nat) (db : DB) :
    ((create_subscription_for_user uid plan (Except.error e) now db).2.payments =
        db.payments ∧
     (create_subscription_for_user uid plan (Except.error e) now db).2.users = db.users ∧
     (create_subscription_for_user uid plan (Except.error e) now db).2.invites =
        db.invites ∧
     (create_subscription_for_user uid plan (Except.error e) now db).2.subscriptions.length =
        db.subscriptions.length) ∧
    ((get_user_active_subscription uid now db).1 = none →
      (create_subscription_for_user uid plan (Except.error e) now db).1 =
        Except.error ("Ошибка при создании VPN подключения: " ++ e)) := by
  have hstate : (create_subscription_for_user uid plan (Except.error e) now db).2 =
      (get_user_active_subscription uid now db).2 := by
    cases hg : (get_user_active_subscription uid now db).1 with
    | some s => simp [create_subscription_for_user, hg]
    | none => simp [create_subscription_for_user, hg]
  constructor
  · rw [hstate]
    rcases get_snd_cases uid now db with heq | ⟨row, _, _, heq⟩ <;> rw [heq] <;>
      simp
  · intro hg
    simp [create_subscription_for_user, hg]

/-- C1 (witness): on a fresh database the panel failure "boom" surfaces as
the wrapped ValueError text. -/
theorem C1_witness :
    (get_user_active_subscription 1 5 emptyDB).1 = none ∧
    (create_subscription_for_user 1 ⟨30, 30, 199⟩ (Except.error "boom") 5 emptyDB).1 =
      Except.error ("Ошибка при создании VPN подключения: " ++ "boom") :=
  ⟨rfl, (C1_service_flow_abortive 1 ⟨30, 30, 199⟩ "boom" 5 emptyDB).2 rfl⟩

/-! ### removeClients lemmas for C2/C9 -/

theorem removeClients_ok_of_objs {cid : String} {l : List Json}
    (h : ∀ c ∈ l, ∃ gs, c = Json.obj gs) :
    ∃ l', removeClients cid l = Except.ok l' := by
  induction l with
  | nil => exact ⟨[], rfl⟩
  | cons c cs ih =>
      obtain ⟨gs, rfl⟩ := h c (List.mem_cons_self c cs)
      obtain ⟨l', hl'⟩ := ih (fun x hx => h x (List.mem_cons_of_mem _ hx))
      refine ⟨if (findD gs "id" Json.null).eqStr cid then l' else Json.obj gs :: l', ?_⟩
      simp [removeClients, hl', Except.map]

theorem removeClients_absent {cid : String} {l : List Json}
    (h : ∀ c ∈ l, ∃ gs, c = Json.obj gs ∧
      (findD gs "id" Json.null).eqStr cid = false) :
    removeClients cid l = Except.ok l := by
  induction l with
  | nil => rfl
  | cons c cs ih =>
      obtain ⟨gs, rfl, hne⟩ := h c (List.mem_cons_self c cs)
      have := ih (fun x hx => h x (List.mem_cons_of_mem _ hx))
      simp [removeClients, this, hne, Except.map]

/-- C2 (counterexample): when the inbound listing does not contain the
configured inbound, delete_client raises (line 293 of xui_client.py) instead
of returning normally; the claim's "every panel behaviour" includes this
case, so the claim is false. -/
theorem C2_counterexample :
    delete_client 1 "abc"
        ⟨[], .exn "boom", .exn "boom", .exn "boom", .exn "boom", .exn "boom"⟩ =
      Except.error "Не найден inbound с ID 1" := rfl

/-- C2 (amended): once the inbound id is set, the search loop finds the
configured inbound in the listing (without raising at a non-dict element on
the way), its settings resolve to a dict, and every entry of its clients
list is itself a dict, delete_client returns normally for every credential
id and all endpoint outcomes — malformed (non-list) clients fields are
normalised to an empty list and the failure of all five update/delete
strategies is logged, not raised. -/
theorem C2_delete_returns_normally (inbound_id : Int) (cid : String)
    (pb : PanelBehaviour) (chosen : Json) (sl : List (String × Json))
    (hid : inbound_id ≠ 0)
    (hfound : findInbound pb.listing inbound_id = Except.ok (some chosen))
    (hsl : deleteSettingsOf chosen = Json.obj sl)
    (hobjs : ∀ c ∈ clientsOf sl, ∃ gs, c = Json.obj gs) :
    ∃ out, delete_client inbound_id cid pb = Except.ok out := by
  obtain ⟨l', hl'⟩ := @removeClients_ok_of_objs cid (clientsOf sl) hobjs
  simp only [delete_client, beq_iff_eq, if_neg hid, hfound, hsl, hl']
  split
  · exact ⟨_, rfl⟩
  · exact ⟨_, rfl⟩

/-- C2 (witness): inbound 1 is present with one client "abc"; all five
endpoint strategies fail, yet delete_client returns normally. -/
theorem C2_witness :
    (1 : Int) ≠ 0 ∧
    findInbound [Json.obj [("id", Json.num 1),
        ("settings", Json.str "\x7b\"clients\": [\x7b\"id\": \"abc\"\x7d]\x7d")]] 1 =
      Except.ok (some (Json.obj [("id", Json.num 1),
        ("settings", Json.str "\x7b\"clients\": [\x7b\"id\": \"abc\"\x7d]\x7d")])) ∧
    deleteSettingsOf (Json.obj [("id", Json.num 1),
        ("settings", Json.str "\x7b\"clients\": [\x7b\"id\": \"abc\"\x7d]\x7d")]) =
      Json.obj [("clients", Json.arr [Json.obj [("id", Json.str "abc")]])] ∧
    (∃ out, delete_client 1 "abc"
        ⟨[Json.obj [("id", Json.num 1),
            ("settings", Json.str "\x7b\"clients\": [\x7b\"id\": \"abc\"\x7d]\x7d")]],
          .badStatus 404, .exn "x", .notSuccess, .badStatus 500, .exn "y"⟩ =
      Except.ok out) :=
  ⟨by decide, rfl, rfl,
    C2_delete_returns_normally 1 "abc"
      ⟨[Json.obj [("id", Json.num 1),
          ("settings", Json.str "\x7b\"clients\": [\x7b\"id\": \"abc\"\x7d]\x7d")]],
        .badStatus 404, .exn "x", .notSuccess, .badStatus 500, .exn "y"⟩
      (Json.obj [("id", Json.num 1),
        ("settings", Json.str "\x7b\"clients\": [\x7b\"id\": \"abc\"\x7d]\x7d")])
      [("clients", Json.arr [Json.obj [("id", Json.str "abc")]])]
      (by decide) rfl rfl
      (by intro c hc
          simp only [clientsOf, findD, List.find?] at hc
          simp at hc
          exact ⟨_, hc⟩)⟩

/-- C9: revocation is idempotent — for any credential id absent from the
found inbound's client list (in particular after a prior deletion), the call
reports not-found and skips, returning normally without attempting any
endpoint; any two absent ids (one previously deleted, one never existing)
produce the identical outcome. -/
theorem C9_idempotent_revocation (inbound_id : Int) (cid cid2 : String)
    (pb : PanelBehaviour) (chosen : Json) (sl : List (String × Json))
    (hid : inbound_id ≠ 0)
    (hfound : findInbound pb.listing inbound_id = Except.ok (some chosen))
    (hsl : deleteSettingsOf chosen = Json.obj sl)
    (habsent : ∀ c ∈ clientsOf sl, ∃ gs, c = Json.obj gs ∧
      (findD gs "id" Json.null).eqStr cid = false)
    (habsent2 : ∀ c ∈ clientsOf sl, ∃ gs, c = Json.obj gs ∧
      (findD gs "id" Json.null).eqStr cid2 = false) :
    delete_client inbound_id cid pb = Except.ok DeleteOutcome.notFound ∧
    delete_client inbound_id cid2 pb = Except.ok DeleteOutcome.notFound ∧
    delete_client inbound_id cid pb = delete_client inbound_id cid2 pb := by
  have h1 := removeClients_absent habsent
  have h2 := removeClients_absent habsent2
  have e1 : delete_client inbound_id cid pb = Except.ok DeleteOutcome.notFound := by
    simp [delete_client, if_neg hid, hfound, hsl, h1]
  have e2 : delete_client inbound_id cid2 pb = Except.ok DeleteOutcome.notFound := by
    simp [delete_client, if_neg hid, hfound, hsl, h2]
  exact ⟨e1, e2, e1.trans e2.symm⟩

/-- C9 (witness): with only client "other" present, deleting "abc" (already
gone) and "never" (never existed) both report not-found and coincide. -/
theorem C9_witness :
    (1 : Int) ≠ 0 ∧
    delete_client 1 "abc"
        ⟨[Json.obj [("id", Json.num 1),
            ("settings", Json.str "\x7b\"clients\": [\x7b\"id\": \"other\"\x7d]\x7d")]],
          .ok, .ok, .ok, .ok, .ok⟩ = Except.ok DeleteOutcome.notFound ∧
    delete_client 1 "never"
        ⟨[Json.obj [("id", Json.num 1),
            ("settings", Json.str "\x7b\"clients\": [\x7b\"id\": \"other\"\x7d]\x7d")]],
          .ok, .ok, .ok, .ok, .ok⟩ = Except.ok DeleteOutcome.notFound :=
  ⟨by decide,
    (C9_idempotent_revocation 1 "abc" "never"
      ⟨[Json.obj [("id", Json.num 1),
          ("settings", Json.str "\x7b\"clients\": [\x7b\"id\": \"other\"\x7d]\x7d")]],
        .ok, .ok, .ok, .ok, .ok⟩
      (Json.obj [("id", Json.num 1),
        ("settings", Json.str "\x7b\"clients\": [\x7b\"id\": \"other\"\x7d]\x7d")])
      [("clients", Json.arr [Json.obj [("id", Json.str "other")]])]
      (by decide) rfl rfl
      (by intro c hc
          simp only [clientsOf, findD, List.find?] at hc
          simp at hc
          subst hc
          exact ⟨_, rfl, rfl⟩)
      (by intro c hc
          simp only [clientsOf, findD, List.find?] at hc
          simp at hc
          subst hc
          exact ⟨_, rfl, rfl⟩)).1,
    (C9_idempotent_revocation 1 "abc" "never"
      ⟨[Json.obj [("id", Json.num 1),
          ("settings", Json.str "\x7b\"clients\": [\x7b\"id\": \"other\"\x7d]\x7d")]],
        .ok, .ok, .ok, .ok, .ok⟩
      (Json.obj [("id", Json.num 1),
        ("settings", Json.str "\x7b\"clients\": [\x7b\"id\": \"other\"\x7d]\x7d")])
      [("clients", Json.arr [Json.obj [("id", Json.str "other")]])]
      (by decide) rfl rfl
      (by intro c hc
          simp only [clientsOf, findD, List.find?] at hc
          simp at hc
          subst hc
          exact ⟨_, rfl, rfl⟩)
      (by intro c hc
          simp only [clientsOf, findD, List.find?] at hc
          simp at hc
          subst hc
          exact ⟨_, rfl, rfl⟩)).2.1⟩

/-! ### C5/C6: transport parameter fallback and URI shape -/

theorem findD_of_find?_none {fs : List (String × Json)} {k : String} {d : Json}
    (h : fs.find? (fun p => p.1 == k) = none) : findD fs k d = d := by
  unfold findD; rw [h]

set_option maxRecDepth 20000 in
/-- C5 (counterexample): for a payload with no realitySettings content at all
(hence no shortId/shortIds, no serverNames, no fingerprints), resolution
succeeds, but in the produced URI the placeholders appear in the relative
order fp=chrome, sni=google.com, sid=3d — `sid=3d` does not precede
`sni=google.com` in the query string, refuting the claimed sid→sni→fp
order. -/
theorem C5_counterexample :
    (addClientLink (Json.obj []) (Json.num 443) (Json.str "1.2.3.4")
        "http://panel:54321/" "uuid-1" "alice" "tg@xui" =
      Except.ok "vless://uuid-1@1.2.3.4:443/?type=tcp&encryption=none&security=reality&fp=chrome&sni=google.com&sid=3d&spx=%2F&flow=xtls-rprx-vision#alice") ∧
    beforeIn "vless://uuid-1@1.2.3.4:443/?type=tcp&encryption=none&security=reality&fp=chrome&sni=google.com&sid=3d&spx=%2F&flow=xtls-rprx-vision#alice"
      "sid=3d" "sni=google.com" = false ∧
    beforeIn "vless://uuid-1@1.2.3.4:443/?type=tcp&encryption=none&security=reality&fp=chrome&sni=google.com&sid=3d&spx=%2F&flow=xtls-rprx-vision#alice"
      "fp=chrome" "sni=google.com" = true ∧
    beforeIn "vless://uuid-1@1.2.3.4:443/?type=tcp&encryption=none&security=reality&fp=chrome&sni=google.com&sid=3d&spx=%2F&flow=xtls-rprx-vision#alice"
      "sni=google.com" "sid=3d" = true := by
  refine ⟨rfl, by rfl, by rfl, by rfl⟩

/-- C5 (amended): for every realitySettings payload containing no
shortId/shortIds, no serverNames and no fingerprints (neither directly nor
under its `settings` entry), and whose `settings` entry resolves to a dict,
parameter resolution raises no exception and yields the placeholders
sid = "" (rendered as `3d`), sni = google.com, fp = chrome; every URI built
from them ends in `&fp=chrome&sni=google.com&sid=3d&spx=%2F&flow=...#label` —
the placeholders appear in the relative order fp, sni, sid. -/
theorem C5_fallback_defaults (rl sl : List (String × Json))
    (h1 : rl.find? (fun p => p.1 == "shortId") = none)
    (h2 : rl.find? (fun p => p.1 == "shortIds") = none)
    (h3 : rl.find? (fun p => p.1 == "serverNames") = none)
    (h4 : rl.find? (fun p => p.1 == "fingerprints") = none)
    (hsl : settingsOf rl = Json.obj sl)
    (h5 : sl.find? (fun p => p.1 == "shortId") = none)
    (h6 : sl.find? (fun p => p.1 == "shortIds") = none)
    (h7 : sl.find? (fun p => p.1 == "fingerprints") = none) :
    resolveReality (Json.obj [("realitySettings", Json.obj rl)]) =
      Except.ok ⟨pbkOf sl, Json.str "", Json.str "google.com", Json.str "chrome"⟩ ∧
    ∀ uuid : String, ∀ ipJ portJ : Json, ∀ dn em : String, ∃ pre,
      buildVlessLink uuid ipJ portJ
          ⟨pbkOf sl, Json.str "", Json.str "google.com", Json.str "chrome"⟩ dn em =
        pre ++ ("&fp=chrome&sni=google.com&sid=3d&spx=%2F&flow=xtls-rprx-vision#" ++
          (if dn != "" then dn else (em.splitOn "@").headD "")) := by
  have hsid : sidOf rl sl = Json.str "" := by
    simp only [sidOf, findD_of_find?_none h1, findD_of_find?_none h2,
      findD_of_find?_none h5, findD_of_find?_none h6]
    simp [fromShortIds, Json.truthy]
  have hsni : sniOf rl = Json.str "google.com" := by
    simp only [sniOf, findD_of_find?_none h3]
  have hfp : fpOf rl sl = Json.str "chrome" := by
    simp only [fpOf, findD_of_find?_none h7, findD_of_find?_none h4]
    simp [Json.truthy]
  constructor
  · cases rl with
    | nil =>
        have hmt : settingsOf ([] : List (String × Json)) = Json.obj [] := rfl
        rw [hmt] at hsl
        have hsl0 : sl = [] := (Json.obj.inj hsl).symm
        subst hsl0
        rfl
    | cons a rest =>
        have hred : resolveReality (Json.obj [("realitySettings", Json.obj (a :: rest))]) =
            (match settingsOf (a :: rest) with
             | Json.obj sl' => Except.ok ⟨pbkOf sl', sidOf (a :: rest) sl',
                 sniOf (a :: rest), fpOf (a :: rest) sl'⟩
             | _ => Except.error "AttributeError: object has no attribute get") := rfl
        rw [hred, hsl]
        simp only [hsid, hsni, hfp]
  · intro uuid ipJ portJ dn em
    have hpc : pyStr (Json.str "chrome") = "chrome" := rfl
    have hpg : pyStr (Json.str "google.com") = "google.com" := rfl
    have hs0 : (Json.str "").truthy = false := rfl
    by_cases hp : (pbkOf sl).truthy
    · refine ⟨"vless://" ++ uuid ++ "@" ++ pyStr ipJ ++ ":" ++ pyStr portJ ++
        "/?type=tcp&encryption=none&security=reality" ++ "&pbk=" ++ pyStr (pbkOf sl), ?_⟩
      apply String.ext
      simp [buildVlessLink, hp, hpc, hpg, hs0, String.data_append, List.append_assoc]
    · refine ⟨"vless://" ++ uuid ++ "@" ++ pyStr ipJ ++ ":" ++ pyStr portJ ++
        "/?type=tcp&encryption=none&security=reality", ?_⟩
      apply String.ext
      simp [buildVlessLink, hp, hpc, hpg, hs0, String.data_append, List.append_assoc]

/-- C5 (witness): the payload `\x7b"dest": "example.com:443"\x7d` (a
realitySettings dict with none of the four parameter fields) resolves to the
placeholder parameters and the canonical URI has the placeholder suffix. -/
theorem C5_witness :
    ([("dest", Json.str "example.com:443")].find? (fun p => p.1 == "shortId") = none) ∧
    (settingsOf [("dest", Json.str "example.com:443")] = Json.obj []) ∧
    (resolveReality (Json.obj [("realitySettings",
        Json.obj [("dest", Json.str "example.com:443")])]) =
      Except.ok ⟨pbkOf [], Json.str "", Json.str "google.com", Json.str "chrome"⟩ ∧
     ∀ uuid : String, ∀ ipJ portJ : Json, ∀ dn em : String, ∃ pre,
       buildVlessLink uuid ipJ portJ
           ⟨pbkOf [], Json.str "", Json.str "google.com", Json.str "chrome"⟩ dn em =
         pre ++ ("&fp=chrome&sni=google.com&sid=3d&spx=%2F&flow=xtls-rprx-vision#" ++
           (if dn != "" then dn else (em.splitOn "@").headD ""))) :=
  ⟨rfl, rfl,
    C5_fallback_defaults [("dest", Json.str "example.com:443")] []
      rfl rfl rfl rfl rfl rfl rfl rfl⟩

/-- C6: the assembled URI has exactly the claimed form — the fixed prefix
`vless://id@host:port/?type=tcp&encryption=none&security=reality`, a `pbk`
segment only when the resolved public key is truthy, then `fp`, `sni`, `sid`
(with the `3d` placeholder when sid is falsy), the fixed
`spx=%2F&flow=xtls-rprx-vision`, and the `#label` fragment; the host is the
inbound's listen address unless that is empty or the 0.0.0.0 wildcard, in
which case it is the host part of the panel base URL; a truthy port is taken
directly from the inbound record. -/
theorem C6_uri_shape :
    (∀ uuid : String, ∀ ip port : Json, ∀ p : RealityParams, ∀ dn em : String,
      p.pbk.truthy = true →
      buildVlessLink uuid ip port p dn em =
        "vless://" ++ uuid ++ "@" ++ pyStr ip ++ ":" ++ pyStr port ++
        "/?type=tcp&encryption=none&security=reality" ++
        ("&pbk=" ++ pyStr p.pbk) ++ ("&fp=" ++ pyStr p.fp) ++ ("&sni=" ++ pyStr p.sni) ++
        ("&sid=" ++ (if p.sid.truthy then pyStr p.sid else "3d")) ++
        "&spx=%2F&flow=xtls-rprx-vision" ++ "#" ++
        (if dn != "" then dn else (em.splitOn "@").headD "")) ∧
    (∀ uuid : String, ∀ ip port : Json, ∀ p : RealityParams, ∀ dn em : String,
      p.pbk.truthy = false →
      buildVlessLink uuid ip port p dn em =
        "vless://" ++ uuid ++ "@" ++ pyStr ip ++ ":" ++ pyStr port ++
        "/?type=tcp&encryption=none&security=reality" ++
        ("&fp=" ++ pyStr p.fp) ++ ("&sni=" ++ pyStr p.sni) ++
        ("&sid=" ++ (if p.sid.truthy then pyStr p.sid else "3d")) ++
        "&spx=%2F&flow=xtls-rprx-vision" ++ "#" ++
        (if dn != "" then dn else (em.splitOn "@").headD "")) ∧
    (∀ s base_url, resolveServerIp (Json.str s) base_url =
      if s = "" ∨ s = "0.0.0.0" then Json.str (hostOfBaseUrl base_url) else Json.str s) ∧
    (∀ base_url, resolveServerIp Json.null base_url = Json.str (hostOfBaseUrl base_url)) ∧
    (∀ port : Json, port.truthy = true → portOf port = port) := by
  refine ⟨?_, ?_, ?_, fun _ => rfl, ?_⟩
  · intro uuid ip port p dn em hp
    apply String.ext
    simp [buildVlessLink, hp, String.data_append, List.append_assoc]
  · intro uuid ip port p dn em hp
    apply String.ext
    simp [buildVlessLink, hp, String.data_append, List.append_assoc]
  · intro s base_url
    by_cases h0 : s = ""
    · subst h0; simp [resolveServerIp, Json.truthy, Json.eqStr]
    · by_cases hw : s = "0.0.0.0"
      · subst hw; simp [resolveServerIp, Json.truthy, Json.eqStr]
      · simp [resolveServerIp, Json.truthy, Json.eqStr, h0, hw]
  · intro port hp; simp [portOf, hp]

/-- C6 (witness): a concrete link with a public key present, the wildcard
listen address resolved from the base URL, and a truthy port. -/
theorem C6_witness :
    (Json.str "PBK").truthy = true ∧
    buildVlessLink "u1" (Json.str "9.9.9.9") (Json.num 8443)
        ⟨Json.str "PBK", Json.str "s1", Json.str "example.com", Json.str "firefox"⟩
        "bob" "e@x" =
      "vless://" ++ "u1" ++ "@" ++ pyStr (Json.str "9.9.9.9") ++ ":" ++
        pyStr (Json.num 8443) ++ "/?type=tcp&encryption=none&security=reality" ++
        ("&pbk=" ++ pyStr (Json.str "PBK")) ++ ("&fp=" ++ pyStr (Json.str "firefox")) ++
        ("&sni=" ++ pyStr (Json.str "example.com")) ++
        ("&sid=" ++ (if (Json.str "s1").truthy then pyStr (Json.str "s1") else "3d")) ++
        "&spx=%2F&flow=xtls-rprx-vision" ++ "#" ++
        (if ("bob" : String) != "" then "bob" else (("e@x" : String).splitOn "@").headD "") ∧
    resolveServerIp (Json.str "0.0.0.0") "http://panel.example:54321/path/" =
      (if ("0.0.0.0" : String) = "" ∨ ("0.0.0.0" : String) = "0.0.0.0" then
        Json.str (hostOfBaseUrl "http://panel.example:54321/path/")
      else Json.str "0.0.0.0") ∧
    (Json.num 8443).truthy = true ∧
    portOf (Json.num 8443) = Json.num 8443 :=
  ⟨rfl,
    (C6_uri_shape).1 "u1" (Json.str "9.9.9.9") (Json.num 8443)
      ⟨Json.str "PBK", Json.str "s1", Json.str "example.com", Json.str "firefox"⟩
      "bob" "e@x" rfl,
    (C6_uri_shape).2.2.1 "0.0.0.0" "http://panel.example:54321/path/",
    rfl,
    (C6_uri_shape).2.2.2.2 (Json.num 8443) rfl⟩

/-! ### C7: panel login -/

/-- C7 (counterexample): status 204 is a 2xx response, yet login raises
(the code accepts only 200 and 302), refuting "succeeds on any 2xx or
redirect response". -/
theorem C7_counterexample :
    ((200 : Nat) ≤ 204 ∧ (204 : Nat) < 300) ∧
    (login none (some "admin") (some "pw") (.resp 204 "ok")).result =
      Except.error "Login error: x-ui login failed: 204 ok" ∧
    (login none (some "admin") (some "pw") (.resp 204 "ok")).authorized = false :=
  ⟨by decide, rfl, rfl⟩

/-- C7 (amended): with a truthy static token the session is authorized
immediately with no network call; otherwise, with truthy credentials, the
form login succeeds exactly on status 200 or 302; any other status raises
carrying the upstream status and body, and connect/timeout/other transport
errors raise with the corresponding messages. -/
theorem C7_login_behaviour :
    (∀ t u p net, optTruthy t = true →
      login t u p net = ⟨Except.ok (), true, false⟩) ∧
    (∀ (u p : String) (st : Nat) (body : String),
      optTruthy (some u) = true → optTruthy (some p) = true →
      ((login none (some u) (some p) (.resp st body)).result = Except.ok () ↔
        (st = 200 ∨ st = 302)) ∧
      (st ≠ 200 → st ≠ 302 →
        (login none (some u) (some p) (.resp st body)).result =
          Except.error ("Login error: x-ui login failed: " ++ toString st ++ " " ++ body))) ∧
    (∀ (u p m : String), optTruthy (some u) = true → optTruthy (some p) = true →
      (login none (some u) (some p) (.connectError m)).result =
        Except.error ("Connection error: " ++ m) ∧
      (login none (some u) (some p) (.timeoutError m)).result =
        Except.error ("Connection timeout: " ++ m) ∧
      (login none (some u) (some p) (.otherError m)).result =
        Except.error ("Login error: " ++ m)) := by
  refine ⟨?_, ?_, ?_⟩
  · intro t u p net ht
    simp [login, ht]
  · intro u p st body hu hp
    have hu' : u ≠ "" := by simpa [optTruthy] using hu
    have hp' : p ≠ "" := by simpa [optTruthy] using hp
    constructor
    · constructor
      · intro hok
        by_contra hno
        push_neg at hno
        obtain ⟨h200, h302⟩ := hno
        simp [login, optTruthy, hu', hp', h200, h302] at hok
      · intro hst
        rcases hst with rfl | rfl <;> simp [login, optTruthy, hu', hp']
    · intro h200 h302
      simp [login, optTruthy, hu', hp', h200, h302]
  · intro u p m hu hp
    have hu' : u ≠ "" := by simpa [optTruthy] using hu
    have hp' : p ≠ "" := by simpa [optTruthy] using hp
    refine ⟨?_, ?_, ?_⟩ <;> simp [login, optTruthy, hu', hp']

/-- C7 (witness): a configured token authorizes without any network call; a
302 redirect succeeds; a connection error surfaces with its message. -/
theorem C7_witness :
    optTruthy (some "tok") = true ∧
    login (some "tok") (some "u") (some "p") (.resp 500 "x") =
      ⟨Except.ok (), true, false⟩ ∧
    ((login none (some "admin") (some "pw") (.resp 302 "redir")).result = Except.ok () ↔
      ((302 : Nat) = 200 ∨ (302 : Nat) = 302)) ∧
    (login none (some "admin") (some "pw") (.connectError "refused")).result =
      Except.error ("Connection error: " ++ "refused") :=
  ⟨rfl,
    C7_login_behaviour.1 (some "tok") (some "u") (some "p") (.resp 500 "x") rfl,
    (C7_login_behaviour.2.1 "admin" "pw" 302 "redir" rfl rfl).1,
    (C7_login_behaviour.2.2 "admin" "pw" "refused" rfl rfl).1⟩

/-! ### C8/C10: invites and user registration -/

theorem forall2_map_self {α β : Type} (R : α → β → Prop) (g : α → β) (l : List α)
    (h : ∀ x ∈ l, R x (g x)) : List.Forall₂ R l (l.map g) := by
  induction l with
  | nil => exact List.Forall₂.nil
  | cons x xs ih =>
      exact List.Forall₂.cons (h x (List.mem_cons_self x xs))
        (ih fun y hy => h y (List.mem_cons_of_mem _ hy))

theorem use_invite_code_none {invite_code : String} {uid now : Nat} {db : DB}
    (h : db.invites.find?
      (fun i => i.invite_code == invite_code && i.used_by == none) = none) :
    use_invite_code invite_code uid now db = (false, db) := by
  simp [use_invite_code, h]

/-- C8: an invite code is consumed at most once, first-referrer-wins. When no
invite row matches the code with a NULL used_by (nonexistent or already
consumed), the call returns False and changes nothing. On the single
successful consumption it returns True, sets used_by/used_at on that row
(others untouched), leaves every user's identity/balance/creation data
unchanged, increments exactly the inviter's invited_count by one, sets the
consumer's referrer_id only if it was NULL — and (with unique codes) any
repeated consumption of the same code afterwards returns False and is a
no-op. -/
theorem C8_invite_consumed_once (invite_code : String) (uid now : Nat) (db : DB) :
    (db.invites.find? (fun i => i.invite_code == invite_code && i.used_by == none) =
        none →
      use_invite_code invite_code uid now db = (false, db)) ∧
    (∀ row,
      db.invites.find? (fun i => i.invite_code == invite_code && i.used_by == none) =
          some row →
      (use_invite_code invite_code uid now db).1 = true ∧
      List.Forall₂ (fun i i' : InviteRow =>
          if i.id = row.id then
            i' = { i with used_by := some uid, used_at := some now }
          else i' = i)
        db.invites (use_invite_code invite_code uid now db).2.invites ∧
      List.Forall₂ (fun u u' : UserRow =>
          u'.user_id = u.user_id ∧ u'.username = u.username ∧
          u'.full_name = u.full_name ∧ u'.balance = u.balance ∧
          u'.created_at = u.created_at ∧
          u'.invited_count = u.invited_count +
            (if u.user_id = row.inviter_id then 1 else 0) ∧
          u'.referrer_id = (if u.user_id = uid ∧ u.referrer_id = none then
            some row.inviter_id else u.referrer_id))
        db.users (use_invite_code invite_code uid now db).2.users ∧
      (db.invites.Pairwise (fun a b => a.invite_code ≠ b.invite_code) →
        ∀ uid2 now2,
          use_invite_code invite_code uid2 now2 (use_invite_code invite_code uid now db).2 =
            (false, (use_invite_code invite_code uid now db).2))) := by
  constructor
  · intro h
    simp [use_invite_code, h]
  · intro row hrow
    have hmem : row ∈ db.invites := List.mem_of_find?_eq_some hrow
    have hpred := List.find?_some hrow
    simp only [Bool.and_eq_true, beq_iff_eq] at hpred
    obtain ⟨hcode, hused⟩ := hpred
    have hinv : (use_invite_code invite_code uid now db).2.invites =
        db.invites.map (fun i =>
          if i.id = row.id then { i with used_by := some uid, used_at := some now }
          else i) := by
      simp [use_invite_code, hrow]
    have husers : (use_invite_code invite_code uid now db).2.users =
        (db.users.map (fun u =>
          if u.user_id == uid && u.referrer_id == none then
            { u with referrer_id := some row.inviter_id }
          else u)).map (fun u =>
            if u.user_id = row.inviter_id then
              { u with invited_count := u.invited_count + 1 }
            else u) := by
      simp [use_invite_code, hrow]
    refine ⟨by simp [use_invite_code, hrow], ?_, ?_, ?_⟩
    · rw [hinv]
      refine forall2_map_self _ _ _ ?_
      intro i _
      by_cases hid : i.id = row.id <;> simp [hid]
    · rw [husers, List.map_map]
      refine forall2_map_self _ _ _ ?_
      intro u _
      simp only [Function.comp]
      by_cases h1 : u.user_id = uid
      · by_cases h3 : u.user_id = row.inviter_id
        · have h4 : uid = row.inviter_id := h1.symm.trans h3
          by_cases h2 : u.referrer_id = none <;> simp [h1, h2, h3, h4]
        · have h4 : ¬(uid = row.inviter_id) := fun he => h3 (h1.trans he)
          by_cases h2 : u.referrer_id = none <;> simp [h1, h2, h3, h4]
      · by_cases h3 : u.user_id = row.inviter_id
        · have h5 : ¬(row.inviter_id = uid) := fun he => h1 (h3.trans he)
          simp [h1, h3, h5]
        · simp [h1, h3]
    · intro huniq uid2 now2
      have hfind2 : (use_invite_code invite_code uid now db).2.invites.find?
          (fun i => i.invite_code == invite_code && i.used_by == none) = none := by
        rw [hinv, List.find?_eq_none]
        intro i' hi'
        obtain ⟨i, hi, rfl⟩ := List.mem_map.mp hi'
        by_cases hid : i.id = row.id
        · simp [hid]
        · simp only [hid, if_false, Bool.and_eq_true, beq_iff_eq, not_and]
          intro hic
          have hne : i ≠ row := fun he => hid (congrArg InviteRow.id he)
          have hsym : Symmetric (fun a b : InviteRow => a.invite_code ≠ b.invite_code) :=
            fun _ _ h hba => h hba.symm
          have hcodes := huniq.forall hsym hi hmem hne
          exact absurd (hic.trans hcode.symm) hcodes
      exact use_invite_code_none hfind2

/-- C8 (witness): the single consumption of code "REF42" by user 9 succeeds,
updates the invite and referral data, and a second consumption is a no-op. -/
theorem C8_witness :
    ([⟨1, 42, "REF42", none, none, 0⟩] : List InviteRow).find?
        (fun i => i.invite_code == "REF42" && i.used_by == none) =
      some ⟨1, 42, "REF42", none, none, 0⟩ ∧
    ((use_invite_code "REF42" 9 50
        ⟨[⟨42, none, none, 0, none, 3, 0⟩, ⟨9, none, none, 0, none, 0, 1⟩],
          [], [], [⟨1, 42, "REF42", none, none, 0⟩], 1, 1, 2⟩).1 = true ∧
     List.Forall₂ (fun i i' : InviteRow =>
         if i.id = 1 then i' = { i with used_by := some 9, used_at := some 50 }
         else i' = i)
       [⟨1, 42, "REF42", none, none, 0⟩]
       (use_invite_code "REF42" 9 50
         ⟨[⟨42, none, none, 0, none, 3, 0⟩, ⟨9, none, none, 0, none, 0, 1⟩],
           [], [], [⟨1, 42, "REF42", none, none, 0⟩], 1, 1, 2⟩).2.invites ∧
     List.Forall₂ (fun u u' : UserRow =>
         u'.user_id = u.user_id ∧ u'.username = u.username ∧
         u'.full_name = u.full_name ∧ u'.balance = u.balance ∧
         u'.created_at = u.created_at ∧
         u'.invited_count = u.invited_count + (if u.user_id = 42 then 1 else 0) ∧
         u'.referrer_id = (if u.user_id = 9 ∧ u.referrer_id = none then some 42
           else u.referrer_id))
       [⟨42, none, none, 0, none, 3, 0⟩, ⟨9, none, none, 0, none, 0, 1⟩]
       (use_invite_code "REF42" 9 50
         ⟨[⟨42, none, none, 0, none, 3, 0⟩, ⟨9, none, none, 0, none, 0, 1⟩],
           [], [], [⟨1, 42, "REF42", none, none, 0⟩], 1, 1, 2⟩).2.users ∧
     (([⟨1, 42, "REF42", none, none, 0⟩] : List InviteRow).Pairwise
         (fun a b => a.invite_code ≠ b.invite_code) →
       ∀ uid2 now2,
         use_invite_code "REF42" uid2 now2
             (use_invite_code "REF42" 9 50
               ⟨[⟨42, none, none, 0, none, 3, 0⟩, ⟨9, none, none, 0, none, 0, 1⟩],
                 [], [], [⟨1, 42, "REF42", none, none, 0⟩], 1, 1, 2⟩).2 =
           (false, (use_invite_code "REF42" 9 50
             ⟨[⟨42, none, none, 0, none, 3, 0⟩, ⟨9, none, none, 0, none, 0, 1⟩],
               [], [], [⟨1, 42, "REF42", none, none, 0⟩], 1, 1, 2⟩).2))) :=
  ⟨rfl,
    (C8_invite_consumed_once "REF42" 9 50
      ⟨[⟨42, none, none, 0, none, 3, 0⟩, ⟨9, none, none, 0, none, 0, 1⟩],
        [], [], [⟨1, 42, "REF42", none, none, 0⟩], 1, 1, 2⟩).2
      ⟨1, 42, "REF42", none, none, 0⟩ rfl⟩

/-- C10: for an already-registered user_id, get_or_create_user never changes
balance, referrer_id, invited_count or created_at of any stored user (at most
the username/full_name columns of that user's row), even when a referrer_id
argument is supplied — a repeated registration can neither reassign a
referrer nor award an extra invited_count; the other tables are untouched
and the stored row is returned. -/
theorem C10_existing_user_frame (uid : Nat) (username full_name : Option String)
    (referrer_id : Option Nat) (now : Nat) (db : DB) (row : UserRow)
    (hrow : db.users.find? (fun u => u.user_id == uid) = some row) :
    (get_or_create_user uid username full_name referrer_id now db).1 = row ∧
    List.Forall₂ (fun u u' : UserRow =>
        u'.user_id = u.user_id ∧ u'.balance = u.balance ∧
        u'.referrer_id = u.referrer_id ∧ u'.invited_count = u.invited_count ∧
        u'.created_at = u.created_at)
      db.users (get_or_create_user uid username full_name referrer_id now db).2.users ∧
    (get_or_create_user uid username full_name referrer_id now db).2.subscriptions =
      db.subscriptions ∧
    (get_or_create_user uid username full_name referrer_id now db).2.payments =
      db.payments ∧
    (get_or_create_user uid username full_name referrer_id now db).2.invites =
      db.invites := by
  refine ⟨by simp [get_or_create_user, hrow], ?_,
    by simp [get_or_create_user, hrow],
    by simp [get_or_create_user, hrow],
    by simp [get_or_create_user, hrow]⟩
  have husers : (get_or_create_user uid username full_name referrer_id now db).2.users =
      (if optTruthy username || optTruthy full_name then
        db.users.map (fun u =>
          if u.user_id = uid then { u with username := username, full_name := full_name }
          else u)
      else db.users) := by
    simp [get_or_create_user, hrow]
  rw [husers]
  by_cases ht : optTruthy username || optTruthy full_name
  · rw [if_pos ht]
    refine forall2_map_self _ _ _ ?_
    intro u _
    by_cases hu : u.user_id = uid <;> simp [hu]
  · rw [if_neg ht]
    exact List.forall₂_same.mpr (fun u _ => ⟨rfl, rfl, rfl, rfl, rfl⟩)

/-- C10 (witness): re-registering user 9 (who has balance 70, referrer 42,
invited_count 2) with a different referrer argument changes none of those
fields and increments nobody's counter. -/
theorem C10_witness :
    ([⟨9, some "old", none, 70, some 42, 2, 3⟩, ⟨5, none, none, 0, none, 1, 0⟩] :
        List UserRow).find? (fun u => u.user_id == 9) =
      some ⟨9, some "old", none, 70, some 42, 2, 3⟩ ∧
    ((get_or_create_user 9 (some "new") (some "New Name") (some 5) 99
        ⟨[⟨9, some "old", none, 70, some 42, 2, 3⟩, ⟨5, none, none, 0, none, 1, 0⟩],
          [], [], [], 1, 1, 1⟩).1 = ⟨9, some "old", none, 70, some 42, 2, 3⟩ ∧
     List.Forall₂ (fun u u' : UserRow =>
         u'.user_id = u.user_id ∧ u'.balance = u.balance ∧
         u'.referrer_id = u.referrer_id ∧ u'.invited_count = u.invited_count ∧
         u'.created_at = u.created_at)
       [⟨9, some "old", none, 70, some 42, 2, 3⟩, ⟨5, none, none, 0, none, 1, 0⟩]
       (get_or_create_user 9 (some "new") (some "New Name") (some 5) 99
         ⟨[⟨9, some "old", none, 70, some 42, 2, 3⟩, ⟨5, none, none, 0, none, 1, 0⟩],
           [], [], [], 1, 1, 1⟩).2.users ∧
     (get_or_create_user 9 (some "new") (some "New Name") (some 5) 99
        ⟨[⟨9, some "old", none, 70, some 42, 2, 3⟩, ⟨5, none, none, 0, none, 1, 0⟩],
          [], [], [], 1, 1, 1⟩).2.subscriptions = [] ∧
     (get_or_create_user 9 (some "new") (some "New Name") (some 5) 99
        ⟨[⟨9, some "old", none, 70, some 42, 2, 3⟩, ⟨5, none, none, 0, none, 1, 0⟩],
          [], [], [], 1, 1, 1⟩).2.payments = [] ∧
     (get_or_create_user 9 (some "new") (some "New Name") (some 5) 99
        ⟨[⟨9, some "old", none, 70, some 42, 2, 3⟩, ⟨5, none, none, 0, none, 1, 0⟩],
          [], [], [], 1, 1, 1⟩).2.invites = []) :=
  ⟨rfl,
    C10_existing_user_frame 9 (some "new") (some "New Name") (some 5) 99
      ⟨[⟨9, some "old", none, 70, some 42, 2, 3⟩, ⟨5, none, none, 0, none, 1, 0⟩],
        [], [], [], 1, 1, 1⟩
      ⟨9, some "old", none, 70, some 42, 2, 3⟩ rfl⟩

end XUmbra
